import Mathlib

/-!
Verification development for the FocuSD backend attention-detection core
(`src/PythonEyeDetection.py`, function `run_detection` plus the Arduino
helpers `connect_to_arduino` / `send_to_arduino`).

The per-frame loop body of `run_detection` (lines 224-418) is embedded as a
pure step function on an explicit session state.  Wall-clock times are
modelled as rationals, frame classification results as booleans supplied by
the (external) signal classifier, and the serial link as an explicit record
whose success/failure on a given write attempt is an input of the frame.
-/

/-- One camera frame, as seen by the detection core: the classifier outputs
`face_detected` / `focus_detected` (lines 236-276), `timestamp` is the value
of `time.time()` taken for this iteration (line 225), and `write_ok` tells
whether a serial write attempted during this frame would succeed (the
`arduino.write` call at line 54 may raise). -/
structure Frame where
  face_detected : Bool
  focus_detected : Bool
  timestamp : ℚ
  write_ok : Bool
deriving DecidableEq

/-- A closed absence/distraction interval, appended at lines 302-306 and
327-331.  The source formats `start`/`end` into clock strings for display;
here we keep the raw timestamps together with the stored `duration`. -/
structure IntervalEvent where
  start_ts : ℚ
  end_ts : ℚ
  duration : ℚ
deriving DecidableEq

/-- The module-level Arduino state: the `arduino` handle together with the
`arduino_connected` flag (lines 26-28), plus the observable history of the
serial channel: characters successfully written and write errors that were
caught and logged (lines 52-57). -/
structure ArduinoLink where
  connected : Bool
  writes : List Char
  write_errors : List Char
deriving DecidableEq

/-- `connect_to_arduino` (lines 30-48): a single connection attempt whose
success is decided by the environment (`ok`); on success the flag is set,
on failure it is cleared.  The function returns the resulting flag value,
exactly as the source returns `True`/`False`. -/
def connect_to_arduino (ok : Bool) : ArduinoLink :=
  { connected := ok, writes := [], write_errors := [] }

/-- `send_to_arduino` (lines 50-57): writes one character if the link is
connected; a raised write error is caught and logged, never propagated.
When disconnected the call does nothing. -/
def send_to_arduino (link : ArduinoLink) (state : Char) (ok : Bool) : ArduinoLink :=
  if link.connected then
    if ok then { link with writes := link.writes ++ [state] }
    else { link with write_errors := link.write_errors ++ [state] }
  else link

/-- The local state of `run_detection` (lines 187-212) together with the
Arduino link and the history of `send_to_arduino` call arguments
(`send_calls`, recording each invocation at line 386). -/
structure DetState where
  start_time : ℚ
  total_time : ℚ
  present_time : ℚ
  focused_time : ℚ
  presence_counter : ℕ
  absence_counter : ℕ
  focus_counter : ℕ
  distraction_counter : ℕ
  presence_threshold : ℕ
  focus_threshold : ℕ
  is_present : Bool
  is_focused : Bool
  last_arduino_state : Option Char
  absence_events : List IntervalEvent
  distraction_events : List IntervalEvent
  current_absence : Option ℚ
  current_distraction : Option ℚ
  send_calls : List Char
  link : ArduinoLink
deriving DecidableEq

/-- Closing a pending absence interval (lines 300-307): if one is open,
append the closed event and clear the pending slot. -/
def closeAbsence (s : DetState) (now : ℚ) : DetState :=
  match s.current_absence with
  | some a =>
      { s with
          absence_events :=
            s.absence_events ++ [{ start_ts := a, end_ts := now, duration := now - a }],
          current_absence := none }
  | none => s

/-- Closing a pending distraction interval (lines 325-332). -/
def closeDistraction (s : DetState) (now : ℚ) : DetState :=
  match s.current_distraction with
  | some a =>
      { s with
          distraction_events :=
            s.distraction_events ++ [{ start_ts := a, end_ts := now, duration := now - a }],
          current_distraction := none }
  | none => s

/-- The presence state machine (lines 294-313): on a face frame increment
`presence_counter` and clear `absence_counter`, flipping to present (and
closing any pending absence interval) once the counter reaches the
threshold; on a non-face frame do the mirror image, flipping to absent and
opening a pending absence interval at `now`. -/
def presenceMachine (s : DetState) (face : Bool) (now : ℚ) : DetState :=
  if face then
    let s' := { s with presence_counter := s.presence_counter + 1, absence_counter := 0 }
    if s'.presence_threshold ≤ s'.presence_counter ∧ s'.is_present = false then
      closeAbsence { s' with is_present := true } now
    else s'
  else
    let s' := { s with absence_counter := s.absence_counter + 1, presence_counter := 0 }
    if s'.presence_threshold ≤ s'.absence_counter ∧ s'.is_present = true then
      { s' with is_present := false, current_absence := some now }
    else s'

/-- The focus state machine (lines 319-338), the exact mirror of
`presenceMachine` on the focus axis. -/
def focusMachine (s : DetState) (focus : Bool) (now : ℚ) : DetState :=
  if focus then
    let s' := { s with focus_counter := s.focus_counter + 1, distraction_counter := 0 }
    if s'.focus_threshold ≤ s'.focus_counter ∧ s'.is_focused = false then
      closeDistraction { s' with is_focused := true } now
    else s'
  else
    let s' := { s with distraction_counter := s.distraction_counter + 1, focus_counter := 0 }
    if s'.focus_threshold ≤ s'.distraction_counter ∧ s'.is_focused = true then
      { s' with is_focused := false, current_distraction := some now }
    else s'

/-- Update of the clock and total time (lines 225-228). -/
def updateTimes (s : DetState) (now : ℚ) : DetState :=
  { s with start_time := now, total_time := s.total_time + (now - s.start_time) }

/-- `present_time` accrual (lines 316-317), gated on the state after the
presence machine ran this frame. -/
def accruePresent (s : DetState) (d : ℚ) : DetState :=
  if s.is_present then { s with present_time := s.present_time + d } else s

/-- `focused_time` accrual (lines 341-342). -/
def accrueFocused (s : DetState) (d : ℚ) : DetState :=
  if s.is_focused then { s with focused_time := s.focused_time + d } else s

/-- The desired Arduino command computed at lines 377-383: absent beats
focused beats distracted. -/
def desiredState (s : DetState) : Char :=
  if s.is_present = false then 'A' else if s.is_focused = true then 'F' else 'D'

/-- The Arduino block of the loop (lines 376-387): when the desired command
differs from the last sent one, call `send_to_arduino` and record the new
command as last sent (unconditionally, whether or not the write succeeded). -/
def arduinoBlock (s : DetState) (ok : Bool) : DetState :=
  let current := desiredState s
  if some current ≠ s.last_arduino_state then
    { s with
        link := send_to_arduino s.link current ok,
        send_calls := s.send_calls ++ [current],
        last_arduino_state := some current }
  else s

/-- Everything the loop body does to the detection state before the Arduino
block: clock update, presence machine, presence accrual, focus machine,
focus accrual (lines 224-342). -/
def preArduino (s : DetState) (f : Frame) : DetState :=
  accrueFocused
    (focusMachine
      (accruePresent
        (presenceMachine (updateTimes s f.timestamp) f.face_detected f.timestamp)
        (f.timestamp - s.start_time))
      f.focus_detected f.timestamp)
    (f.timestamp - s.start_time)

/-- One full iteration of the `while` loop of `run_detection`
(lines 217-418, omitting the pure-display code). -/
def stepFrame (s : DetState) (f : Frame) : DetState :=
  arduinoBlock (preArduino s f) f.write_ok

/-- The initial state of `run_detection` (lines 187-212): `start_time` is the
`time.time()` value taken at line 188, all accumulators and counters are
zero, both stable states are false, thresholds are parameters (the source
sets both to 10 at lines 200-201), and the Arduino link is whatever the
startup `connect_to_arduino` produced. -/
def initState (t0 : ℚ) (link : ArduinoLink) (pthr fthr : ℕ) : DetState where
  start_time := t0
  total_time := 0
  present_time := 0
  focused_time := 0
  presence_counter := 0
  absence_counter := 0
  focus_counter := 0
  distraction_counter := 0
  presence_threshold := pthr
  focus_threshold := fthr
  is_present := false
  is_focused := false
  last_arduino_state := none
  absence_events := []
  distraction_events := []
  current_absence := none
  current_distraction := none
  send_calls := []
  link := link

/-- Running the loop over a list of frames. -/
def runFrames (s : DetState) (fs : List Frame) : DetState :=
  fs.foldl stepFrame s

/-- `presence_score` (line 345). -/
def presence_score (s : DetState) : ℚ :=
  if 0 < s.total_time then s.present_time / s.total_time * 100 else 0

/-- `focus_score` (line 346). -/
def focus_score (s : DetState) : ℚ :=
  if 0 < s.present_time then s.focused_time / s.present_time * 100 else 0

/-- `overall_score` (line 347). -/
def overall_score (s : DetState) : ℚ :=
  if 0 < s.total_time then s.focused_time / s.total_time * 100 else 0

/-- The debounce progress toward leaving the current stable presence state:
while absent it is `presence_counter`, while present it is
`absence_counter` (this is the `match_counter` of the spec data model). -/
def presenceProgress (s : DetState) : ℕ :=
  if s.is_present then s.absence_counter else s.presence_counter

/-- The debounce progress toward leaving the current stable focus state. -/
def focusProgress (s : DetState) : ℕ :=
  if s.is_focused then s.distraction_counter else s.focus_counter

/-- Frame timestamps weakly increase, starting from a given clock value. -/
def timesMono : ℚ → List Frame → Bool
  | _, [] => true
  | t0, f :: fs => decide (t0 ≤ f.timestamp) && timesMono f.timestamp fs

/-- Frame timestamps strictly increase, starting from a given clock value. -/
def timesStrict : ℚ → List Frame → Bool
  | _, [] => true
  | t0, f :: fs => decide (t0 < f.timestamp) && timesStrict f.timestamp fs

/-- Every frame that reports focus also reports a face: in the source
`focus_detected` is only ever set inside the `face_detected` branch
(lines 241-276). -/
def focusImpFace (fs : List Frame) : Bool :=
  fs.all fun f => !f.focus_detected || f.face_detected

/-- The stable presence value observed after each successive frame of a run:
the sequence of `is_present` values the session goes through. -/
def presenceTrace (s : DetState) : List Frame → List Bool
  | [] => []
  | f :: fs => (stepFrame s f).is_present :: presenceTrace (stepFrame s f) fs

/-- A face-only frame (classifier reports a face but no focus). -/
def faceFrame : Frame :=
  { face_detected := true, focus_detected := false, timestamp := 0, write_ok := true }

/-- A frame on which the classifier reports nothing. -/
def blankFrame : Frame :=
  { face_detected := false, focus_detected := false, timestamp := 0, write_ok := true }

/-- Scenario A input: 9 face frames, 1 blank frame, then 10 face frames. -/
def traceA : List Frame :=
  List.replicate 9 faceFrame ++ [blankFrame] ++ List.replicate 10 faceFrame

/-- The debounce invariant of the spec data model: the progress counter
toward leaving the current stable state is strictly below the threshold
after every frame (so the abstract `match_counter` stays in
`[0, threshold]`). -/
def ProgressInv (s : DetState) : Prop :=
  (s.is_present = false → s.presence_counter < s.presence_threshold) ∧
  (s.is_present = true → s.absence_counter < s.presence_threshold) ∧
  (s.is_focused = false → s.focus_counter < s.focus_threshold) ∧
  (s.is_focused = true → s.distraction_counter < s.focus_threshold)

/-- The metrics invariant: all accumulators non-negative, and the presence
and focus times never exceed the total. -/
def TimeInv (s : DetState) : Prop :=
  0 ≤ s.total_time ∧ 0 ≤ s.present_time ∧ 0 ≤ s.focused_time ∧
  s.present_time ≤ s.total_time ∧ s.focused_time ≤ s.total_time

/-- The cross-axis invariant forced by the fact that the source only sets
`focus_detected` inside the `face_detected` branch: the focus run counter
never exceeds the presence run counter, the absence run counter never
exceeds the distraction run counter, stable focus implies stable presence,
and focused time never exceeds present time. -/
def FocusPresence (s : DetState) : Prop :=
  s.focus_counter ≤ s.presence_counter ∧
  s.absence_counter ≤ s.distraction_counter ∧
  (s.is_focused = true → s.is_present = true) ∧
  s.focused_time ≤ s.present_time ∧
  s.presence_threshold = s.focus_threshold

/-- Well-formedness of the event log: every closed interval has a strictly
earlier start than end and stores its exact duration, and any pending
interval opened no later than the current clock value. -/
def EventInv (s : DetState) : Prop :=
  (∀ e ∈ s.absence_events, e.start_ts < e.end_ts ∧ e.duration = e.end_ts - e.start_ts) ∧
  (∀ e ∈ s.distraction_events, e.start_ts < e.end_ts ∧ e.duration = e.end_ts - e.start_ts) ∧
  (∀ a, s.current_absence = some a → a ≤ s.start_time) ∧
  (∀ a, s.current_distraction = some a → a ≤ s.start_time)

/-- Deduplication invariant of the Arduino bridge: `last_arduino_state` is
exactly the last command passed to `send_to_arduino`, and no two
consecutive calls carried the same command. -/
def DedupInv (s : DetState) : Prop :=
  s.last_arduino_state = s.send_calls.getLast? ∧
  List.Chain' (fun a b => a ≠ b) s.send_calls

/-- A fully detected frame at `t = 1` (face and focus). -/
def frame1 : Frame :=
  { face_detected := true, focus_detected := true, timestamp := 1, write_ok := true }

/-- An empty frame at `t = 2`. -/
def frame2 : Frame :=
  { face_detected := false, focus_detected := false, timestamp := 2, write_ok := true }

/-- A state about to flip back to present with a pending absence interval
opened at `t = 0` (threshold 1, one face frame will complete the flip). -/
def pendingAbsState : DetState :=
  { initState 0 (connect_to_arduino false) 1 1 with
      current_absence := some 0, current_distraction := some 0 }

/-- The closing frame of Scenario B, at `t = 0.333`. -/
def frameB : Frame :=
  { face_detected := true, focus_detected := true, timestamp := 333 / 1000, write_ok := true }

/-- An empty frame at `t = 5`. -/
def frameT5 : Frame :=
  { face_detected := false, focus_detected := false, timestamp := 5, write_ok := true }

/-- An empty frame whose serial write would fail. -/
def failFrame : Frame :=
  { face_detected := false, focus_detected := false, timestamp := 0, write_ok := false }

/-! ### Frame lemmas: which fields each stage of the loop body can touch -/

lemma closeAbsence_frame (s : DetState) (t : ℚ) :
    ∃ ae ca, closeAbsence s t = { s with absence_events := ae, current_absence := ca } := by
  unfold closeAbsence
  cases h : s.current_absence
  · exact ⟨_, _, rfl⟩
  · exact ⟨_, _, rfl⟩

lemma closeDistraction_frame (s : DetState) (t : ℚ) :
    ∃ de cd, closeDistraction s t = { s with distraction_events := de, current_distraction := cd } := by
  unfold closeDistraction
  cases h : s.current_distraction
  · exact ⟨_, _, rfl⟩
  · exact ⟨_, _, rfl⟩

lemma presenceMachine_frame (s : DetState) (b : Bool) (t : ℚ) :
    ∃ pc ac ip ae ca, presenceMachine s b t =
      { s with presence_counter := pc, absence_counter := ac, is_present := ip,
               absence_events := ae, current_absence := ca } := by
  unfold presenceMachine
  dsimp only
  split
  · split
    · obtain ⟨ae, ca, h⟩ := closeAbsence_frame
        { s with presence_counter := s.presence_counter + 1, absence_counter := 0,
                 is_present := true } t
      exact ⟨_, _, _, ae, ca, by rw [h]⟩
    · exact ⟨_, _, _, _, _, rfl⟩
  · split
    · exact ⟨_, _, _, _, _, rfl⟩
    · exact ⟨_, _, _, _, _, rfl⟩

lemma focusMachine_frame (s : DetState) (b : Bool) (t : ℚ) :
    ∃ fc dc ifo de cd, focusMachine s b t =
      { s with focus_counter := fc, distraction_counter := dc, is_focused := ifo,
               distraction_events := de, current_distraction := cd } := by
  unfold focusMachine
  dsimp only
  split
  · split
    · obtain ⟨de, cd, h⟩ := closeDistraction_frame
        { s with focus_counter := s.focus_counter + 1, distraction_counter := 0,
                 is_focused := true } t
      exact ⟨_, _, _, de, cd, by rw [h]⟩
    · exact ⟨_, _, _, _, _, rfl⟩
  · split
    · exact ⟨_, _, _, _, _, rfl⟩
    · exact ⟨_, _, _, _, _, rfl⟩

lemma arduinoBlock_frame (s : DetState) (ok : Bool) :
    ∃ L sc la, arduinoBlock s ok =
      { s with link := L, send_calls := sc, last_arduino_state := la } := by
  unfold arduinoBlock
  dsimp only
  split
  · exact ⟨_, _, _, rfl⟩
  · exact ⟨_, _, _, rfl⟩

@[simp] lemma presenceMachine_total_time (s : DetState) (b : Bool) (t : ℚ) :
    (presenceMachine s b t).total_time = s.total_time := by
  obtain ⟨pc, ac, ip, ae, ca, h⟩ := presenceMachine_frame s b t; rw [h]

@[simp] lemma accruePresent_is_present (s : DetState) (d : ℚ) :
    (accruePresent s d).is_present = s.is_present := by
  unfold accruePresent; split <;> rfl

@[simp] lemma arduinoBlock_is_present (s : DetState) (ok : Bool) :
    (arduinoBlock s ok).is_present = s.is_present := by
  unfold arduinoBlock; dsimp only; split <;> rfl

/-! ### Projection lemmas: fields untouched by each stage -/

@[simp] lemma presenceMachine_start_time (s : DetState) (b : Bool) (t : ℚ) :
    (presenceMachine s b t).start_time = s.start_time := by
  obtain ⟨pc, ac, ip, ae, ca, h⟩ := presenceMachine_frame s b t; rw [h]

@[simp] lemma presenceMachine_present_time (s : DetState) (b : Bool) (t : ℚ) :
    (presenceMachine s b t).present_time = s.present_time := by
  obtain ⟨pc, ac, ip, ae, ca, h⟩ := presenceMachine_frame s b t; rw [h]

@[simp] lemma presenceMachine_focused_time (s : DetState) (b : Bool) (t : ℚ) :
    (presenceMachine s b t).focused_time = s.focused_time := by
  obtain ⟨pc, ac, ip, ae, ca, h⟩ := presenceMachine_frame s b t; rw [h]

@[simp] lemma presenceMachine_focus_counter (s : DetState) (b : Bool) (t : ℚ) :
    (presenceMachine s b t).focus_counter = s.focus_counter := by
  obtain ⟨pc, ac, ip, ae, ca, h⟩ := presenceMachine_frame s b t; rw [h]

@[simp] lemma presenceMachine_distraction_counter (s : DetState) (b : Bool) (t : ℚ) :
    (presenceMachine s b t).distraction_counter = s.distraction_counter := by
  obtain ⟨pc, ac, ip, ae, ca, h⟩ := presenceMachine_frame s b t; rw [h]

@[simp] lemma presenceMachine_presence_threshold (s : DetState) (b : Bool) (t : ℚ) :
    (presenceMachine s b t).presence_threshold = s.presence_threshold := by
  obtain ⟨pc, ac, ip, ae, ca, h⟩ := presenceMachine_frame s b t; rw [h]

@[simp] lemma presenceMachine_focus_threshold (s : DetState) (b : Bool) (t : ℚ) :
    (presenceMachine s b t).focus_threshold = s.focus_threshold := by
  obtain ⟨pc, ac, ip, ae, ca, h⟩ := presenceMachine_frame s b t; rw [h]

@[simp] lemma presenceMachine_is_focused (s : DetState) (b : Bool) (t : ℚ) :
    (presenceMachine s b t).is_focused = s.is_focused := by
  obtain ⟨pc, ac, ip, ae, ca, h⟩ := presenceMachine_frame s b t; rw [h]

@[simp] lemma presenceMachine_last_arduino_state (s : DetState) (b : Bool) (t : ℚ) :
    (presenceMachine s b t).last_arduino_state = s.last_arduino_state := by
  obtain ⟨pc, ac, ip, ae, ca, h⟩ := presenceMachine_frame s b t; rw [h]

@[simp] lemma presenceMachine_distraction_events (s : DetState) (b : Bool) (t : ℚ) :
    (presenceMachine s b t).distraction_events = s.distraction_events := by
  obtain ⟨pc, ac, ip, ae, ca, h⟩ := presenceMachine_frame s b t; rw [h]

@[simp] lemma presenceMachine_current_distraction (s : DetState) (b : Bool) (t : ℚ) :
    (presenceMachine s b t).current_distraction = s.current_distraction := by
  obtain ⟨pc, ac, ip, ae, ca, h⟩ := presenceMachine_frame s b t; rw [h]

@[simp] lemma presenceMachine_send_calls (s : DetState) (b : Bool) (t : ℚ) :
    (presenceMachine s b t).send_calls = s.send_calls := by
  obtain ⟨pc, ac, ip, ae, ca, h⟩ := presenceMachine_frame s b t; rw [h]

@[simp] lemma presenceMachine_link (s : DetState) (b : Bool) (t : ℚ) :
    (presenceMachine s b t).link = s.link := by
  obtain ⟨pc, ac, ip, ae, ca, h⟩ := presenceMachine_frame s b t; rw [h]

@[simp] lemma focusMachine_start_time (s : DetState) (b : Bool) (t : ℚ) :
    (focusMachine s b t).start_time = s.start_time := by
  obtain ⟨fc, dc, ifo, de, cd, h⟩ := focusMachine_frame s b t; rw [h]

@[simp] lemma focusMachine_total_time (s : DetState) (b : Bool) (t : ℚ) :
    (focusMachine s b t).total_time = s.total_time := by
  obtain ⟨fc, dc, ifo, de, cd, h⟩ := focusMachine_frame s b t; rw [h]

@[simp] lemma focusMachine_present_time (s : DetState) (b : Bool) (t : ℚ) :
    (focusMachine s b t).present_time = s.present_time := by
  obtain ⟨fc, dc, ifo, de, cd, h⟩ := focusMachine_frame s b t; rw [h]

@[simp] lemma focusMachine_focused_time (s : DetState) (b : Bool) (t : ℚ) :
    (focusMachine s b t).focused_time = s.focused_time := by
  obtain ⟨fc, dc, ifo, de, cd, h⟩ := focusMachine_frame s b t; rw [h]

@[simp] lemma focusMachine_presence_counter (s : DetState) (b : Bool) (t : ℚ) :
    (focusMachine s b t).presence_counter = s.presence_counter := by
  obtain ⟨fc, dc, ifo, de, cd, h⟩ := focusMachine_frame s b t; rw [h]

@[simp] lemma focusMachine_absence_counter (s : DetState) (b : Bool) (t : ℚ) :
    (focusMachine s b t).absence_counter = s.absence_counter := by
  obtain ⟨fc, dc, ifo, de, cd, h⟩ := focusMachine_frame s b t; rw [h]

@[simp] lemma focusMachine_presence_threshold (s : DetState) (b : Bool) (t : ℚ) :
    (focusMachine s b t).presence_threshold = s.presence_threshold := by
  obtain ⟨fc, dc, ifo, de, cd, h⟩ := focusMachine_frame s b t; rw [h]

@[simp] lemma focusMachine_focus_threshold (s : DetState) (b : Bool) (t : ℚ) :
    (focusMachine s b t).focus_threshold = s.focus_threshold := by
  obtain ⟨fc, dc, ifo, de, cd, h⟩ := focusMachine_frame s b t; rw [h]

@[simp] lemma focusMachine_is_present (s : DetState) (b : Bool) (t : ℚ) :
    (focusMachine s b t).is_present = s.is_present := by
  obtain ⟨fc, dc, ifo, de, cd, h⟩ := focusMachine_frame s b t; rw [h]

@[simp] lemma focusMachine_last_arduino_state (s : DetState) (b : Bool) (t : ℚ) :
    (focusMachine s b t).last_arduino_state = s.last_arduino_state := by
  obtain ⟨fc, dc, ifo, de, cd, h⟩ := focusMachine_frame s b t; rw [h]

@[simp] lemma focusMachine_absence_events (s : DetState) (b : Bool) (t : ℚ) :
    (focusMachine s b t).absence_events = s.absence_events := by
  obtain ⟨fc, dc, ifo, de, cd, h⟩ := focusMachine_frame s b t; rw [h]

@[simp] lemma focusMachine_current_absence (s : DetState) (b : Bool) (t : ℚ) :
    (focusMachine s b t).current_absence = s.current_absence := by
  obtain ⟨fc, dc, ifo, de, cd, h⟩ := focusMachine_frame s b t; rw [h]

@[simp] lemma focusMachine_send_calls (s : DetState) (b : Bool) (t : ℚ) :
    (focusMachine s b t).send_calls = s.send_calls := by
  obtain ⟨fc, dc, ifo, de, cd, h⟩ := focusMachine_frame s b t; rw [h]

@[simp] lemma focusMachine_link (s : DetState) (b : Bool) (t : ℚ) :
    (focusMachine s b t).link = s.link := by
  obtain ⟨fc, dc, ifo, de, cd, h⟩ := focusMachine_frame s b t; rw [h]

@[simp] lemma accruePresent_start_time (s : DetState) (d : ℚ) :
    (accruePresent s d).start_time = s.start_time := by
  unfold accruePresent; split <;> rfl

@[simp] lemma accruePresent_total_time (s : DetState) (d : ℚ) :
    (accruePresent s d).total_time = s.total_time := by
  unfold accruePresent; split <;> rfl

@[simp] lemma accruePresent_focused_time (s : DetState) (d : ℚ) :
    (accruePresent s d).focused_time = s.focused_time := by
  unfold accruePresent; split <;> rfl

@[simp] lemma accruePresent_presence_counter (s : DetState) (d : ℚ) :
    (accruePresent s d).presence_counter = s.presence_counter := by
  unfold accruePresent; split <;> rfl

@[simp] lemma accruePresent_absence_counter (s : DetState) (d : ℚ) :
    (accruePresent s d).absence_counter = s.absence_counter := by
  unfold accruePresent; split <;> rfl

@[simp] lemma accruePresent_focus_counter (s : DetState) (d : ℚ) :
    (accruePresent s d).focus_counter = s.focus_counter := by
  unfold accruePresent; split <;> rfl

@[simp] lemma accruePresent_distraction_counter (s : DetState) (d : ℚ) :
    (accruePresent s d).distraction_counter = s.distraction_counter := by
  unfold accruePresent; split <;> rfl

@[simp] lemma accruePresent_presence_threshold (s : DetState) (d : ℚ) :
    (accruePresent s d).presence_threshold = s.presence_threshold := by
  unfold accruePresent; split <;> rfl

@[simp] lemma accruePresent_focus_threshold (s : DetState) (d : ℚ) :
    (accruePresent s d).focus_threshold = s.focus_threshold := by
  unfold accruePresent; split <;> rfl

@[simp] lemma accruePresent_is_focused (s : DetState) (d : ℚ) :
    (accruePresent s d).is_focused = s.is_focused := by
  unfold accruePresent; split <;> rfl

@[simp] lemma accruePresent_last_arduino_state (s : DetState) (d : ℚ) :
    (accruePresent s d).last_arduino_state = s.last_arduino_state := by
  unfold accruePresent; split <;> rfl

@[simp] lemma accruePresent_absence_events (s : DetState) (d : ℚ) :
    (accruePresent s d).absence_events = s.absence_events := by
  unfold accruePresent; split <;> rfl

@[simp] lemma accruePresent_distraction_events (s : DetState) (d : ℚ) :
    (accruePresent s d).distraction_events = s.distraction_events := by
  unfold accruePresent; split <;> rfl

@[simp] lemma accruePresent_current_absence (s : DetState) (d : ℚ) :
    (accruePresent s d).current_absence = s.current_absence := by
  unfold accruePresent; split <;> rfl

@[simp] lemma accruePresent_current_distraction (s : DetState) (d : ℚ) :
    (accruePresent s d).current_distraction = s.current_distraction := by
  unfold accruePresent; split <;> rfl

@[simp] lemma accruePresent_send_calls (s : DetState) (d : ℚ) :
    (accruePresent s d).send_calls = s.send_calls := by
  unfold accruePresent; split <;> rfl

@[simp] lemma accruePresent_link (s : DetState) (d : ℚ) :
    (accruePresent s d).link = s.link := by
  unfold accruePresent; split <;> rfl

@[simp] lemma accrueFocused_start_time (s : DetState) (d : ℚ) :
    (accrueFocused s d).start_time = s.start_time := by
  unfold accrueFocused; split <;> rfl

@[simp] lemma accrueFocused_total_time (s : DetState) (d : ℚ) :
    (accrueFocused s d).total_time = s.total_time := by
  unfold accrueFocused; split <;> rfl

@[simp] lemma accrueFocused_present_time (s : DetState) (d : ℚ) :
    (accrueFocused s d).present_time = s.present_time := by
  unfold accrueFocused; split <;> rfl

@[simp] lemma accrueFocused_presence_counter (s : DetState) (d : ℚ) :
    (accrueFocused s d).presence_counter = s.presence_counter := by
  unfold accrueFocused; split <;> rfl

@[simp] lemma accrueFocused_absence_counter (s : DetState) (d : ℚ) :
    (accrueFocused s d).absence_counter = s.absence_counter := by
  unfold accrueFocused; split <;> rfl

@[simp] lemma accrueFocused_focus_counter (s : DetState) (d : ℚ) :
    (accrueFocused s d).focus_counter = s.focus_counter := by
  unfold accrueFocused; split <;> rfl

@[simp] lemma accrueFocused_distraction_counter (s : DetState) (d : ℚ) :
    (accrueFocused s d).distraction_counter = s.distraction_counter := by
  unfold accrueFocused; split <;> rfl

@[simp] lemma accrueFocused_presence_threshold (s : DetState) (d : ℚ) :
    (accrueFocused s d).presence_threshold = s.presence_threshold := by
  unfold accrueFocused; split <;> rfl

@[simp] lemma accrueFocused_focus_threshold (s : DetState) (d : ℚ) :
    (accrueFocused s d).focus_threshold = s.focus_threshold := by
  unfold accrueFocused; split <;> rfl

@[simp] lemma accrueFocused_is_present (s : DetState) (d : ℚ) :
    (accrueFocused s d).is_present = s.is_present := by
  unfold accrueFocused; split <;> rfl

@[simp] lemma accrueFocused_is_focused (s : DetState) (d : ℚ) :
    (accrueFocused s d).is_focused = s.is_focused := by
  unfold accrueFocused; split <;> rfl

@[simp] lemma accrueFocused_last_arduino_state (s : DetState) (d : ℚ) :
    (accrueFocused s d).last_arduino_state = s.last_arduino_state := by
  unfold accrueFocused; split <;> rfl

@[simp] lemma accrueFocused_absence_events (s : DetState) (d : ℚ) :
    (accrueFocused s d).absence_events = s.absence_events := by
  unfold accrueFocused; split <;> rfl

@[simp] lemma accrueFocused_distraction_events (s : DetState) (d : ℚ) :
    (accrueFocused s d).distraction_events = s.distraction_events := by
  unfold accrueFocused; split <;> rfl

@[simp] lemma accrueFocused_current_absence (s : DetState) (d : ℚ) :
    (accrueFocused s d).current_absence = s.current_absence := by
  unfold accrueFocused; split <;> rfl

@[simp] lemma accrueFocused_current_distraction (s : DetState) (d : ℚ) :
    (accrueFocused s d).current_distraction = s.current_distraction := by
  unfold accrueFocused; split <;> rfl

@[simp] lemma accrueFocused_send_calls (s : DetState) (d : ℚ) :
    (accrueFocused s d).send_calls = s.send_calls := by
  unfold accrueFocused; split <;> rfl

@[simp] lemma accrueFocused_link (s : DetState) (d : ℚ) :
    (accrueFocused s d).link = s.link := by
  unfold accrueFocused; split <;> rfl

@[simp] lemma arduinoBlock_start_time (s : DetState) (ok : Bool) :
    (arduinoBlock s ok).start_time = s.start_time := by
  unfold arduinoBlock; dsimp only; split <;> rfl

@[simp] lemma arduinoBlock_total_time (s : DetState) (ok : Bool) :
    (arduinoBlock s ok).total_time = s.total_time := by
  unfold arduinoBlock; dsimp only; split <;> rfl

@[simp] lemma arduinoBlock_present_time (s : DetState) (ok : Bool) :
    (arduinoBlock s ok).present_time = s.present_time := by
  unfold arduinoBlock; dsimp only; split <;> rfl

@[simp] lemma arduinoBlock_focused_time (s : DetState) (ok : Bool) :
    (arduinoBlock s ok).focused_time = s.focused_time := by
  unfold arduinoBlock; dsimp only; split <;> rfl

@[simp] lemma arduinoBlock_presence_counter (s : DetState) (ok : Bool) :
    (arduinoBlock s ok).presence_counter = s.presence_counter := by
  unfold arduinoBlock; dsimp only; split <;> rfl

@[simp] lemma arduinoBlock_absence_counter (s : DetState) (ok : Bool) :
    (arduinoBlock s ok).absence_counter = s.absence_counter := by
  unfold arduinoBlock; dsimp only; split <;> rfl

@[simp] lemma arduinoBlock_focus_counter (s : DetState) (ok : Bool) :
    (arduinoBlock s ok).focus_counter = s.focus_counter := by
  unfold arduinoBlock; dsimp only; split <;> rfl

@[simp] lemma arduinoBlock_distraction_counter (s : DetState) (ok : Bool) :
    (arduinoBlock s ok).distraction_counter = s.distraction_counter := by
  unfold arduinoBlock; dsimp only; split <;> rfl

@[simp] lemma arduinoBlock_presence_threshold (s : DetState) (ok : Bool) :
    (arduinoBlock s ok).presence_threshold = s.presence_threshold := by
  unfold arduinoBlock; dsimp only; split <;> rfl

@[simp] lemma arduinoBlock_focus_threshold (s : DetState) (ok : Bool) :
    (arduinoBlock s ok).focus_threshold = s.focus_threshold := by
  unfold arduinoBlock; dsimp only; split <;> rfl

@[simp] lemma arduinoBlock_is_focused (s : DetState) (ok : Bool) :
    (arduinoBlock s ok).is_focused = s.is_focused := by
  unfold arduinoBlock; dsimp only; split <;> rfl

@[simp] lemma arduinoBlock_absence_events (s : DetState) (ok : Bool) :
    (arduinoBlock s ok).absence_events = s.absence_events := by
  unfold arduinoBlock; dsimp only; split <;> rfl

@[simp] lemma arduinoBlock_distraction_events (s : DetState) (ok : Bool) :
    (arduinoBlock s ok).distraction_events = s.distraction_events := by
  unfold arduinoBlock; dsimp only; split <;> rfl

@[simp] lemma arduinoBlock_current_absence (s : DetState) (ok : Bool) :
    (arduinoBlock s ok).current_absence = s.current_absence := by
  unfold arduinoBlock; dsimp only; split <;> rfl

@[simp] lemma arduinoBlock_current_distraction (s : DetState) (ok : Bool) :
    (arduinoBlock s ok).current_distraction = s.current_distraction := by
  unfold arduinoBlock; dsimp only; split <;> rfl

@[simp] lemma accruePresent_present_time (s : DetState) (d : ℚ) :
    (accruePresent s d).present_time = if s.is_present then s.present_time + d else s.present_time := by
  unfold accruePresent; split <;> rfl

@[simp] lemma accrueFocused_focused_time (s : DetState) (d : ℚ) :
    (accrueFocused s d).focused_time = if s.is_focused then s.focused_time + d else s.focused_time := by
  unfold accrueFocused; split <;> rfl

/-! ### Characterization lemmas: the effect of each stage on its own fields -/

@[simp] lemma closeAbsence_is_present (s : DetState) (t : ℚ) :
    (closeAbsence s t).is_present = s.is_present := by
  obtain ⟨ae, ca, h⟩ := closeAbsence_frame s t; rw [h]

@[simp] lemma closeAbsence_presence_counter (s : DetState) (t : ℚ) :
    (closeAbsence s t).presence_counter = s.presence_counter := by
  obtain ⟨ae, ca, h⟩ := closeAbsence_frame s t; rw [h]

@[simp] lemma closeAbsence_absence_counter (s : DetState) (t : ℚ) :
    (closeAbsence s t).absence_counter = s.absence_counter := by
  obtain ⟨ae, ca, h⟩ := closeAbsence_frame s t; rw [h]

@[simp] lemma closeDistraction_is_focused (s : DetState) (t : ℚ) :
    (closeDistraction s t).is_focused = s.is_focused := by
  obtain ⟨de, cd, h⟩ := closeDistraction_frame s t; rw [h]

@[simp] lemma closeDistraction_focus_counter (s : DetState) (t : ℚ) :
    (closeDistraction s t).focus_counter = s.focus_counter := by
  obtain ⟨de, cd, h⟩ := closeDistraction_frame s t; rw [h]

@[simp] lemma closeDistraction_distraction_counter (s : DetState) (t : ℚ) :
    (closeDistraction s t).distraction_counter = s.distraction_counter := by
  obtain ⟨de, cd, h⟩ := closeDistraction_frame s t; rw [h]

lemma presenceMachine_is_present (s : DetState) (b : Bool) (t : ℚ) :
    (presenceMachine s b t).is_present =
      if b then (if s.presence_threshold ≤ s.presence_counter + 1 then true else s.is_present)
      else (if s.presence_threshold ≤ s.absence_counter + 1 then false else s.is_present) := by
  cases b
  · unfold presenceMachine
    dsimp only
    by_cases hT : s.presence_threshold ≤ s.absence_counter + 1
    · cases hp : s.is_present <;> simp [hT, hp]
    · simp [hT]
  · unfold presenceMachine
    dsimp only
    by_cases hP : s.presence_threshold ≤ s.presence_counter + 1
    · cases hp : s.is_present <;> simp [hP, hp]
    · simp [hP]

lemma presenceMachine_presence_counter (s : DetState) (b : Bool) (t : ℚ) :
    (presenceMachine s b t).presence_counter = if b then s.presence_counter + 1 else 0 := by
  unfold presenceMachine
  cases b <;> dsimp only <;> (repeat' split) <;> simp_all

lemma presenceMachine_absence_counter (s : DetState) (b : Bool) (t : ℚ) :
    (presenceMachine s b t).absence_counter = if b then 0 else s.absence_counter + 1 := by
  unfold presenceMachine
  cases b <;> dsimp only <;> (repeat' split) <;> simp_all

lemma focusMachine_is_focused (s : DetState) (b : Bool) (t : ℚ) :
    (focusMachine s b t).is_focused =
      if b then (if s.focus_threshold ≤ s.focus_counter + 1 then true else s.is_focused)
      else (if s.focus_threshold ≤ s.distraction_counter + 1 then false else s.is_focused) := by
  cases b
  · unfold focusMachine
    dsimp only
    by_cases hT : s.focus_threshold ≤ s.distraction_counter + 1
    · cases hp : s.is_focused <;> simp [hT, hp]
    · simp [hT]
  · unfold focusMachine
    dsimp only
    by_cases hF : s.focus_threshold ≤ s.focus_counter + 1
    · cases hp : s.is_focused <;> simp [hF, hp]
    · simp [hF]

lemma focusMachine_focus_counter (s : DetState) (b : Bool) (t : ℚ) :
    (focusMachine s b t).focus_counter = if b then s.focus_counter + 1 else 0 := by
  unfold focusMachine
  cases b <;> dsimp only <;> (repeat' split) <;> simp_all

lemma focusMachine_distraction_counter (s : DetState) (b : Bool) (t : ℚ) :
    (focusMachine s b t).distraction_counter = if b then 0 else s.distraction_counter + 1 := by
  unfold focusMachine
  cases b <;> dsimp only <;> (repeat' split) <;> simp_all

lemma presenceMachine_absence_events (s : DetState) (b : Bool) (t : ℚ) :
    (presenceMachine s b t).absence_events =
      if b = true ∧ s.presence_threshold ≤ s.presence_counter + 1 ∧ s.is_present = false then
        (match s.current_absence with
         | some a => s.absence_events ++ [{ start_ts := a, end_ts := t, duration := t - a }]
         | none => s.absence_events)
      else s.absence_events := by
  unfold presenceMachine closeAbsence
  cases b <;> dsimp only <;> (repeat' split) <;> simp_all

lemma presenceMachine_current_absence (s : DetState) (b : Bool) (t : ℚ) :
    (presenceMachine s b t).current_absence =
      if b = true then
        (if s.presence_threshold ≤ s.presence_counter + 1 ∧ s.is_present = false then none
         else s.current_absence)
      else
        (if s.presence_threshold ≤ s.absence_counter + 1 ∧ s.is_present = true then some t
         else s.current_absence) := by
  unfold presenceMachine closeAbsence
  cases b <;> dsimp only <;> (repeat' split) <;> simp_all

lemma focusMachine_distraction_events (s : DetState) (b : Bool) (t : ℚ) :
    (focusMachine s b t).distraction_events =
      if b = true ∧ s.focus_threshold ≤ s.focus_counter + 1 ∧ s.is_focused = false then
        (match s.current_distraction with
         | some a => s.distraction_events ++ [{ start_ts := a, end_ts := t, duration := t - a }]
         | none => s.distraction_events)
      else s.distraction_events := by
  unfold focusMachine closeDistraction
  cases b <;> dsimp only <;> (repeat' split) <;> simp_all

lemma focusMachine_current_distraction (s : DetState) (b : Bool) (t : ℚ) :
    (focusMachine s b t).current_distraction =
      if b = true then
        (if s.focus_threshold ≤ s.focus_counter + 1 ∧ s.is_focused = false then none
         else s.current_distraction)
      else
        (if s.focus_threshold ≤ s.distraction_counter + 1 ∧ s.is_focused = true then some t
         else s.current_distraction) := by
  unfold focusMachine closeDistraction
  cases b <;> dsimp only <;> (repeat' split) <;> simp_all

/-! ### Characterization of one full loop iteration -/

@[simp] lemma runFrames_nil (s : DetState) : runFrames s [] = s := rfl

@[simp] lemma runFrames_cons (s : DetState) (f : Frame) (fs : List Frame) :
    runFrames s (f :: fs) = runFrames (stepFrame s f) fs := rfl

lemma stepFrame_is_present (s : DetState) (f : Frame) :
    (stepFrame s f).is_present =
      if f.face_detected
      then (if s.presence_threshold ≤ s.presence_counter + 1 then true else s.is_present)
      else (if s.presence_threshold ≤ s.absence_counter + 1 then false else s.is_present) := by
  unfold stepFrame preArduino updateTimes
  simp [presenceMachine_is_present]

lemma stepFrame_is_focused (s : DetState) (f : Frame) :
    (stepFrame s f).is_focused =
      if f.focus_detected
      then (if s.focus_threshold ≤ s.focus_counter + 1 then true else s.is_focused)
      else (if s.focus_threshold ≤ s.distraction_counter + 1 then false else s.is_focused) := by
  unfold stepFrame preArduino updateTimes
  simp [focusMachine_is_focused]

@[simp] lemma stepFrame_presence_counter (s : DetState) (f : Frame) :
    (stepFrame s f).presence_counter = if f.face_detected then s.presence_counter + 1 else 0 := by
  unfold stepFrame preArduino updateTimes
  simp [presenceMachine_presence_counter]

@[simp] lemma stepFrame_absence_counter (s : DetState) (f : Frame) :
    (stepFrame s f).absence_counter = if f.face_detected then 0 else s.absence_counter + 1 := by
  unfold stepFrame preArduino updateTimes
  simp [presenceMachine_absence_counter]

@[simp] lemma stepFrame_focus_counter (s : DetState) (f : Frame) :
    (stepFrame s f).focus_counter = if f.focus_detected then s.focus_counter + 1 else 0 := by
  unfold stepFrame preArduino updateTimes
  simp [focusMachine_focus_counter]

@[simp] lemma stepFrame_distraction_counter (s : DetState) (f : Frame) :
    (stepFrame s f).distraction_counter =
      if f.focus_detected then 0 else s.distraction_counter + 1 := by
  unfold stepFrame preArduino updateTimes
  simp [focusMachine_distraction_counter]

@[simp] lemma stepFrame_presence_threshold (s : DetState) (f : Frame) :
    (stepFrame s f).presence_threshold = s.presence_threshold := by
  unfold stepFrame preArduino updateTimes; simp

@[simp] lemma stepFrame_focus_threshold (s : DetState) (f : Frame) :
    (stepFrame s f).focus_threshold = s.focus_threshold := by
  unfold stepFrame preArduino updateTimes; simp

@[simp] lemma stepFrame_start_time (s : DetState) (f : Frame) :
    (stepFrame s f).start_time = f.timestamp := by
  unfold stepFrame preArduino updateTimes; simp

@[simp] lemma stepFrame_total_time (s : DetState) (f : Frame) :
    (stepFrame s f).total_time = s.total_time + (f.timestamp - s.start_time) := by
  unfold stepFrame preArduino updateTimes; simp

lemma stepFrame_present_time (s : DetState) (f : Frame) :
    (stepFrame s f).present_time =
      if (stepFrame s f).is_present then s.present_time + (f.timestamp - s.start_time)
      else s.present_time := by
  unfold stepFrame preArduino updateTimes
  simp

lemma stepFrame_focused_time (s : DetState) (f : Frame) :
    (stepFrame s f).focused_time =
      if (stepFrame s f).is_focused then s.focused_time + (f.timestamp - s.start_time)
      else s.focused_time := by
  unfold stepFrame preArduino updateTimes
  simp

lemma stepFrame_absence_events (s : DetState) (f : Frame) :
    (stepFrame s f).absence_events =
      if f.face_detected = true ∧ s.presence_threshold ≤ s.presence_counter + 1 ∧
          s.is_present = false then
        (match s.current_absence with
         | some a =>
             s.absence_events ++ [{ start_ts := a, end_ts := f.timestamp,
                                    duration := f.timestamp - a }]
         | none => s.absence_events)
      else s.absence_events := by
  unfold stepFrame preArduino updateTimes
  simp [presenceMachine_absence_events]

lemma stepFrame_current_absence (s : DetState) (f : Frame) :
    (stepFrame s f).current_absence =
      if f.face_detected = true then
        (if s.presence_threshold ≤ s.presence_counter + 1 ∧ s.is_present = false then none
         else s.current_absence)
      else
        (if s.presence_threshold ≤ s.absence_counter + 1 ∧ s.is_present = true
         then some f.timestamp else s.current_absence) := by
  unfold stepFrame preArduino updateTimes
  simp [presenceMachine_current_absence]

lemma stepFrame_distraction_events (s : DetState) (f : Frame) :
    (stepFrame s f).distraction_events =
      if f.focus_detected = true ∧ s.focus_threshold ≤ s.focus_counter + 1 ∧
          s.is_focused = false then
        (match s.current_distraction with
         | some a =>
             s.distraction_events ++ [{ start_ts := a, end_ts := f.timestamp,
                                        duration := f.timestamp - a }]
         | none => s.distraction_events)
      else s.distraction_events := by
  unfold stepFrame preArduino updateTimes
  simp [focusMachine_distraction_events]

lemma stepFrame_current_distraction (s : DetState) (f : Frame) :
    (stepFrame s f).current_distraction =
      if f.focus_detected = true then
        (if s.focus_threshold ≤ s.focus_counter + 1 ∧ s.is_focused = false then none
         else s.current_distraction)
      else
        (if s.focus_threshold ≤ s.distraction_counter + 1 ∧ s.is_focused = true
         then some f.timestamp else s.current_distraction) := by
  unfold stepFrame preArduino updateTimes
  simp [focusMachine_current_distraction]

lemma desiredState_stepFrame (s : DetState) (f : Frame) :
    desiredState (stepFrame s f) = desiredState (preArduino s f) := by
  unfold stepFrame desiredState
  simp

@[simp] lemma preArduino_last_arduino_state (s : DetState) (f : Frame) :
    (preArduino s f).last_arduino_state = s.last_arduino_state := by
  unfold preArduino updateTimes; simp

@[simp] lemma preArduino_send_calls (s : DetState) (f : Frame) :
    (preArduino s f).send_calls = s.send_calls := by
  unfold preArduino updateTimes; simp

@[simp] lemma preArduino_link (s : DetState) (f : Frame) :
    (preArduino s f).link = s.link := by
  unfold preArduino updateTimes; simp

lemma stepFrame_last_arduino_state (s : DetState) (f : Frame) :
    (stepFrame s f).last_arduino_state = some (desiredState (preArduino s f)) := by
  unfold stepFrame arduinoBlock
  dsimp only
  split
  · rfl
  · rename_i h
    rw [not_ne_iff] at h
    exact h.symm

lemma stepFrame_send_calls (s : DetState) (f : Frame) :
    (stepFrame s f).send_calls =
      if some (desiredState (preArduino s f)) = s.last_arduino_state then s.send_calls
      else s.send_calls ++ [desiredState (preArduino s f)] := by
  unfold stepFrame arduinoBlock
  dsimp only
  split <;> rename_i h <;> simp_all

lemma stepFrame_link (s : DetState) (f : Frame) :
    (stepFrame s f).link =
      if some (desiredState (preArduino s f)) = s.last_arduino_state then s.link
      else send_to_arduino s.link (desiredState (preArduino s f)) f.write_ok := by
  unfold stepFrame arduinoBlock
  dsimp only
  split <;> rename_i h <;> simp_all

/-! ### Debounce behaviour of one frame -/

lemma stepFrame_nonmatching_presence (s : DetState) (f : Frame)
    (h : f.face_detected = s.is_present) :
    (stepFrame s f).is_present = s.is_present ∧ presenceProgress (stepFrame s f) = 0 := by
  cases hp : s.is_present
  · rw [hp] at h
    have h1 : (stepFrame s f).is_present = false := by
      simp [stepFrame_is_present, h, hp]
    exact ⟨h1, by simp [presenceProgress, h1, h]⟩
  · rw [hp] at h
    have h1 : (stepFrame s f).is_present = true := by
      simp [stepFrame_is_present, h, hp]
    exact ⟨h1, by simp [presenceProgress, h1, h]⟩

lemma stepFrame_matching_presence (s : DetState) (f : Frame)
    (h : f.face_detected = !s.is_present) :
    ((stepFrame s f).is_present =
      if s.presence_threshold ≤ presenceProgress s + 1 then !s.is_present else s.is_present) ∧
    presenceProgress (stepFrame s f) =
      (if s.presence_threshold ≤ presenceProgress s + 1 then 0 else presenceProgress s + 1) := by
  cases hp : s.is_present
  · rw [hp] at h
    simp only [Bool.not_false] at h
    by_cases hT : s.presence_threshold ≤ s.presence_counter + 1
    · have h1 : (stepFrame s f).is_present = true := by
        simp [stepFrame_is_present, h, hT]
      exact ⟨by simp [presenceProgress, hp, hT, h1],
             by simp [presenceProgress, hp, hT, h1, h]⟩
    · have h1 : (stepFrame s f).is_present = false := by
        simp [stepFrame_is_present, h, hT, hp]
      exact ⟨by simp [presenceProgress, hp, hT, h1],
             by simp [presenceProgress, hp, hT, h1, h]⟩
  · rw [hp] at h
    simp only [Bool.not_true] at h
    by_cases hT : s.presence_threshold ≤ s.absence_counter + 1
    · have h1 : (stepFrame s f).is_present = false := by
        simp [stepFrame_is_present, h, hT]
      exact ⟨by simp [presenceProgress, hp, hT, h1],
             by simp [presenceProgress, hp, hT, h1, h]⟩
    · have h1 : (stepFrame s f).is_present = true := by
        simp [stepFrame_is_present, h, hT, hp]
      exact ⟨by simp [presenceProgress, hp, hT, h1],
             by simp [presenceProgress, hp, hT, h1, h]⟩

lemma stepFrame_nonmatching_focus (s : DetState) (f : Frame)
    (h : f.focus_detected = s.is_focused) :
    (stepFrame s f).is_focused = s.is_focused ∧ focusProgress (stepFrame s f) = 0 := by
  cases hp : s.is_focused
  · rw [hp] at h
    have h1 : (stepFrame s f).is_focused = false := by
      simp [stepFrame_is_focused, h, hp]
    exact ⟨h1, by simp [focusProgress, h1, h]⟩
  · rw [hp] at h
    have h1 : (stepFrame s f).is_focused = true := by
      simp [stepFrame_is_focused, h, hp]
    exact ⟨h1, by simp [focusProgress, h1, h]⟩

lemma stepFrame_matching_focus (s : DetState) (f : Frame)
    (h : f.focus_detected = !s.is_focused) :
    ((stepFrame s f).is_focused =
      if s.focus_threshold ≤ focusProgress s + 1 then !s.is_focused else s.is_focused) ∧
    focusProgress (stepFrame s f) =
      (if s.focus_threshold ≤ focusProgress s + 1 then 0 else focusProgress s + 1) := by
  cases hp : s.is_focused
  · rw [hp] at h
    simp only [Bool.not_false] at h
    by_cases hT : s.focus_threshold ≤ s.focus_counter + 1
    · have h1 : (stepFrame s f).is_focused = true := by
        simp [stepFrame_is_focused, h, hT]
      exact ⟨by simp [focusProgress, hp, hT, h1],
             by simp [focusProgress, hp, hT, h1, h]⟩
    · have h1 : (stepFrame s f).is_focused = false := by
        simp [stepFrame_is_focused, h, hT, hp]
      exact ⟨by simp [focusProgress, hp, hT, h1],
             by simp [focusProgress, hp, hT, h1, h]⟩
  · rw [hp] at h
    simp only [Bool.not_true] at h
    by_cases hT : s.focus_threshold ≤ s.distraction_counter + 1
    · have h1 : (stepFrame s f).is_focused = false := by
        simp [stepFrame_is_focused, h, hT]
      exact ⟨by simp [focusProgress, hp, hT, h1],
             by simp [focusProgress, hp, hT, h1, h]⟩
    · have h1 : (stepFrame s f).is_focused = true := by
        simp [stepFrame_is_focused, h, hT, hp]
      exact ⟨by simp [focusProgress, hp, hT, h1],
             by simp [focusProgress, hp, hT, h1, h]⟩

/-! ### Run-level basics and the debounce invariant -/

@[simp] lemma runFrames_append (s : DetState) (l1 l2 : List Frame) :
    runFrames s (l1 ++ l2) = runFrames (runFrames s l1) l2 := by
  unfold runFrames
  exact List.foldl_append stepFrame s l1 l2

@[simp] lemma runFrames_presence_threshold (s : DetState) (fs : List Frame) :
    (runFrames s fs).presence_threshold = s.presence_threshold := by
  induction fs generalizing s with
  | nil => rfl
  | cons f fs ih => rw [runFrames_cons, ih]; simp

@[simp] lemma runFrames_focus_threshold (s : DetState) (fs : List Frame) :
    (runFrames s fs).focus_threshold = s.focus_threshold := by
  induction fs generalizing s with
  | nil => rfl
  | cons f fs ih => rw [runFrames_cons, ih]; simp

lemma progressInv_step (s : DetState) (f : Frame)
    (hP : 0 < s.presence_threshold) (hF : 0 < s.focus_threshold)
    (h : ProgressInv s) : ProgressInv (stepFrame s f) := by
  obtain ⟨h1, h2, h3, h4⟩ := h
  unfold ProgressInv
  rw [stepFrame_is_present, stepFrame_is_focused, stepFrame_presence_counter,
      stepFrame_absence_counter, stepFrame_focus_counter, stepFrame_distraction_counter,
      stepFrame_presence_threshold, stepFrame_focus_threshold]
  cases hf : f.face_detected <;> cases hg : f.focus_detected <;>
    cases hp : s.is_present <;> cases hq : s.is_focused <;>
    simp_all

lemma progressInv_run (s : DetState) (fs : List Frame)
    (hP : 0 < s.presence_threshold) (hF : 0 < s.focus_threshold) (h : ProgressInv s) :
    ProgressInv (runFrames s fs) := by
  induction fs generalizing s with
  | nil => exact h
  | cons f fs ih =>
      rw [runFrames_cons]
      exact ih (stepFrame s f) (by simpa using hP) (by simpa using hF)
        (progressInv_step s f hP hF h)

lemma progressInv_init (t0 : ℚ) (L : ArduinoLink) (P F : ℕ) (hP : 0 < P) (hF : 0 < F) :
    ProgressInv (initState t0 L P F) := by
  simp [ProgressInv, initState]
  exact ⟨hP, hF⟩

/-! ### Scenario A: 9 face frames, 1 blank frame, 10 face frames -/

lemma presenceTrace_append (s : DetState) (l1 l2 : List Frame) :
    presenceTrace s (l1 ++ l2) = presenceTrace s l1 ++ presenceTrace (runFrames s l1) l2 := by
  induction l1 generalizing s with
  | nil => simp [presenceTrace]
  | cons f fs ih => simp [presenceTrace, ih]

lemma presenceTrace_faceRun (n : ℕ) (s : DetState)
    (hp : s.is_present = false)
    (hlt : s.presence_counter + n < s.presence_threshold) :
    presenceTrace s (List.replicate n faceFrame) = List.replicate n false ∧
    (runFrames s (List.replicate n faceFrame)).is_present = false ∧
    (runFrames s (List.replicate n faceFrame)).presence_counter = s.presence_counter + n := by
  induction n generalizing s with
  | zero => simp [presenceTrace, hp]
  | succ n ih =>
      have hface : faceFrame.face_detected = true := rfl
      have hnf : ¬ s.presence_threshold ≤ s.presence_counter + 1 := by omega
      have h1 : (stepFrame s faceFrame).is_present = false := by
        rw [stepFrame_is_present, hface]
        simp [hnf, hp]
      have h2 : (stepFrame s faceFrame).presence_counter = s.presence_counter + 1 := by
        simp [hface]
      have h3 : (stepFrame s faceFrame).presence_threshold = s.presence_threshold := by simp
      obtain ⟨ht, hip, hpc⟩ := ih (stepFrame s faceFrame) h1 (by rw [h2, h3]; omega)
      refine ⟨?_, ?_, ?_⟩
      · rw [List.replicate_succ]
        show (stepFrame s faceFrame).is_present ::
            presenceTrace (stepFrame s faceFrame) (List.replicate n faceFrame) =
          List.replicate (n + 1) false
        rw [h1, ht, List.replicate_succ]
      · rw [List.replicate_succ, runFrames_cons]
        exact hip
      · rw [List.replicate_succ, runFrames_cons, hpc, h2]
        omega

lemma scenarioA_presence :
    presenceTrace (initState 0 (connect_to_arduino false) 10 10) traceA =
      List.replicate 19 false ++ [true] := by
  obtain ⟨t1, ip1, pc1⟩ := presenceTrace_faceRun 9 (initState 0 (connect_to_arduino false) 10 10)
    (by simp [initState]) (by simp [initState])
  have th1 : (runFrames (initState 0 (connect_to_arduino false) 10 10)
      (List.replicate 9 faceFrame)).presence_threshold = 10 := by
    simp [initState]
  unfold traceA
  rw [presenceTrace_append, presenceTrace_append, t1]
  set s1 := runFrames (initState 0 (connect_to_arduino false) 10 10) (List.replicate 9 faceFrame)
    with hs1
  have hblankface : blankFrame.face_detected = false := rfl
  have hb1 : (stepFrame s1 blankFrame).is_present = false := by
    rw [stepFrame_is_present, hblankface]
    simp [ip1, th1]
  have hb2 : (stepFrame s1 blankFrame).presence_counter = 0 := by
    simp [hblankface]
  have hb3 : (stepFrame s1 blankFrame).presence_threshold = 10 := by
    rw [stepFrame_presence_threshold, th1]
  have hrun1 : runFrames s1 [blankFrame] = stepFrame s1 blankFrame := by
    rw [runFrames_cons, runFrames_nil]
  have htb : presenceTrace s1 [blankFrame] = [false] := by
    simp [presenceTrace, hb1]
  rw [htb, runFrames_append, ← hs1, hrun1]
  set s2 := stepFrame s1 blankFrame with hs2
  obtain ⟨t3, ip3, pc3⟩ := presenceTrace_faceRun 9 s2 hb1 (by rw [hb2, hb3]; omega)
  have th3 : (runFrames s2 (List.replicate 9 faceFrame)).presence_threshold = 10 := by
    rw [runFrames_presence_threshold, hb3]
  have hrep10 : List.replicate 10 faceFrame = List.replicate 9 faceFrame ++ [faceFrame] :=
    List.replicate_succ' 9 faceFrame
  rw [hrep10, presenceTrace_append, t3]
  set s3 := runFrames s2 (List.replicate 9 faceFrame) with hs3
  have hface : faceFrame.face_detected = true := rfl
  have hflip : (stepFrame s3 faceFrame).is_present = true := by
    rw [stepFrame_is_present, hface]
    have : s3.presence_threshold ≤ s3.presence_counter + 1 := by
      rw [th3, pc3, hb2]
    simp [this]
  have ht4 : presenceTrace s3 [faceFrame] = [true] := by
    simp [presenceTrace, hflip]
  rw [ht4]
  decide

/-- Claim C1: for every threshold `T > 0`, a debounced stable state
(`is_present`, and likewise `is_focused`) flips only after exactly `T`
consecutive frames matching the direction opposite to the current stable
state: a non-matching frame keeps the state and resets the accumulated
progress to 0 (not to progress minus one), a matching frame below the
threshold only increments the progress, and the flip happens exactly on the
frame whose arrival makes the progress reach `T`.  In Scenario A (threshold
10, starting stable-absent: 9 face frames, then 1 blank frame, then 10 face
frames) presence is still absent after each of the first 19 frames and
flips to present exactly on the 10th frame of the second run. -/
theorem c1_debounce_flips_after_exactly_T (T : ℕ) (hT : 0 < T) :
    (∀ s f, s.presence_threshold = T → f.face_detected = s.is_present →
        (stepFrame s f).is_present = s.is_present ∧
          presenceProgress (stepFrame s f) = 0) ∧
    (∀ s f, s.presence_threshold = T → f.face_detected = !s.is_present →
        presenceProgress s + 1 < T →
        (stepFrame s f).is_present = s.is_present ∧
          presenceProgress (stepFrame s f) = presenceProgress s + 1) ∧
    (∀ s f, s.presence_threshold = T → f.face_detected = !s.is_present →
        presenceProgress s + 1 = T →
        (stepFrame s f).is_present = !s.is_present) ∧
    (∀ s f, s.focus_threshold = T → f.focus_detected = s.is_focused →
        (stepFrame s f).is_focused = s.is_focused ∧
          focusProgress (stepFrame s f) = 0) ∧
    (∀ s f, s.focus_threshold = T → f.focus_detected = !s.is_focused →
        focusProgress s + 1 < T →
        (stepFrame s f).is_focused = s.is_focused ∧
          focusProgress (stepFrame s f) = focusProgress s + 1) ∧
    (∀ s f, s.focus_threshold = T → f.focus_detected = !s.is_focused →
        focusProgress s + 1 = T →
        (stepFrame s f).is_focused = !s.is_focused) ∧
    presenceTrace (initState 0 (connect_to_arduino false) 10 10) traceA =
      List.replicate 19 false ++ [true] := by
  refine ⟨?_, ?_, ?_, ?_, ?_, ?_, scenarioA_presence⟩
  · intro s f _ hm
    exact stepFrame_nonmatching_presence s f hm
  · intro s f hth hm hlt
    obtain ⟨he, hp⟩ := stepFrame_matching_presence s f hm
    rw [hth] at he hp
    rw [if_neg (by omega)] at he
    rw [if_neg (by omega)] at hp
    exact ⟨he, hp⟩
  · intro s f hth hm heq
    obtain ⟨he, _⟩ := stepFrame_matching_presence s f hm
    rw [hth] at he
    rw [if_pos (by omega)] at he
    exact he
  · intro s f _ hm
    exact stepFrame_nonmatching_focus s f hm
  · intro s f hth hm hlt
    obtain ⟨he, hp⟩ := stepFrame_matching_focus s f hm
    rw [hth] at he hp
    rw [if_neg (by omega)] at he
    rw [if_neg (by omega)] at hp
    exact ⟨he, hp⟩
  · intro s f hth hm heq
    obtain ⟨he, _⟩ := stepFrame_matching_focus s f hm
    rw [hth] at he
    rw [if_pos (by omega)] at he
    exact he

/-- Witness for C1 at `T = 10`, on the Scenario A input. -/
theorem c1_debounce_flips_after_exactly_T_witness :
    (0 < 10) ∧
    presenceTrace (initState 0 (connect_to_arduino false) 10 10) traceA =
      List.replicate 19 false ++ [true] :=
  ⟨by decide, (c1_debounce_flips_after_exactly_T 10 (by decide)).2.2.2.2.2.2⟩

/-- Claim C7: for each debounced axis the progress counter toward leaving
the current stable state (the abstract `match_counter`) stays in
`[0, threshold]` along every run from the initial state; the stable state
changes only at the instant that counter reaches the threshold while moving
toward the opposite value, and at that instant the counter is 0 again. -/
theorem c7_match_counter_invariant (T F : ℕ) (hT : 0 < T) (hF : 0 < F) :
    (∀ t0 L fs,
        presenceProgress (runFrames (initState t0 L T F) fs) ≤ T ∧
        focusProgress (runFrames (initState t0 L T F) fs) ≤ F) ∧
    (∀ s f, presenceProgress s < s.presence_threshold →
        (stepFrame s f).is_present ≠ s.is_present →
        f.face_detected = !s.is_present ∧
          presenceProgress s + 1 = s.presence_threshold ∧
          presenceProgress (stepFrame s f) = 0) ∧
    (∀ s f, focusProgress s < s.focus_threshold →
        (stepFrame s f).is_focused ≠ s.is_focused →
        f.focus_detected = !s.is_focused ∧
          focusProgress s + 1 = s.focus_threshold ∧
          focusProgress (stepFrame s f) = 0) := by
  refine ⟨?_, ?_, ?_⟩
  · intro t0 L fs
    have hinv := progressInv_run (initState t0 L T F) fs
      (by simp [initState]; exact hT) (by simp [initState]; exact hF)
      (progressInv_init t0 L T F hT hF)
    obtain ⟨h1, h2, h3, h4⟩ := hinv
    have hTT : (runFrames (initState t0 L T F) fs).presence_threshold = T := by
      simp [initState]
    have hFF : (runFrames (initState t0 L T F) fs).focus_threshold = F := by
      simp [initState]
    rw [hTT] at h1 h2
    rw [hFF] at h3 h4
    constructor
    · unfold presenceProgress
      split
      · rename_i hh
        exact le_of_lt (h2 hh)
      · rename_i hh
        rw [Bool.not_eq_true] at hh
        exact le_of_lt (h1 hh)
    · unfold focusProgress
      split
      · rename_i hh
        exact le_of_lt (h4 hh)
      · rename_i hh
        rw [Bool.not_eq_true] at hh
        exact le_of_lt (h3 hh)
  · intro s f hlt hne
    by_cases hmatch : f.face_detected = s.is_present
    · obtain ⟨he, _⟩ := stepFrame_nonmatching_presence s f hmatch
      exact absurd he hne
    · have hm : f.face_detected = !s.is_present := Bool.eq_not_iff.mpr hmatch
      obtain ⟨he, hprog⟩ := stepFrame_matching_presence s f hm
      by_cases hT2 : s.presence_threshold ≤ presenceProgress s + 1
      · refine ⟨hm, by omega, ?_⟩
        rw [hprog, if_pos hT2]
      · rw [if_neg hT2] at he
        exact absurd he hne
  · intro s f hlt hne
    by_cases hmatch : f.focus_detected = s.is_focused
    · obtain ⟨he, _⟩ := stepFrame_nonmatching_focus s f hmatch
      exact absurd he hne
    · have hm : f.focus_detected = !s.is_focused := Bool.eq_not_iff.mpr hmatch
      obtain ⟨he, hprog⟩ := stepFrame_matching_focus s f hm
      by_cases hT2 : s.focus_threshold ≤ focusProgress s + 1
      · refine ⟨hm, by omega, ?_⟩
        rw [hprog, if_pos hT2]
      · rw [if_neg hT2] at he
        exact absurd he hne

/-- Witness for C7 at thresholds `T = F = 10` on a one-frame run. -/
theorem c7_match_counter_invariant_witness :
    (0 < 10) ∧
    presenceProgress (runFrames (initState 0 (connect_to_arduino false) 10 10) [faceFrame])
      ≤ 10 ∧
    focusProgress (runFrames (initState 0 (connect_to_arduino false) 10 10) [faceFrame])
      ≤ 10 := by
  refine ⟨by decide, ?_, ?_⟩
  · exact ((c7_match_counter_invariant 10 10 (by decide) (by decide)).1 0
      (connect_to_arduino false) [faceFrame]).1
  · exact ((c7_match_counter_invariant 10 10 (by decide) (by decide)).1 0
      (connect_to_arduino false) [faceFrame]).2

/-! ### Time metrics -/

lemma timeInv_step (s : DetState) (f : Frame) (hts : s.start_time ≤ f.timestamp)
    (h : TimeInv s) : TimeInv (stepFrame s f) := by
  obtain ⟨h1, h2, h3, h4, h5⟩ := h
  have hd : 0 ≤ f.timestamp - s.start_time := by linarith
  unfold TimeInv
  rw [stepFrame_total_time, stepFrame_present_time, stepFrame_focused_time]
  split_ifs <;> refine ⟨?_, ?_, ?_, ?_, ?_⟩ <;> linarith

lemma timeInv_run (s : DetState) (fs : List Frame) (hts : timesMono s.start_time fs = true)
    (h : TimeInv s) : TimeInv (runFrames s fs) := by
  induction fs generalizing s with
  | nil => exact h
  | cons f fs ih =>
      simp only [timesMono, Bool.and_eq_true, decide_eq_true_eq] at hts
      obtain ⟨hle, hrest⟩ := hts
      rw [runFrames_cons]
      exact ih (stepFrame s f) (by rw [stepFrame_start_time]; exact hrest)
        (timeInv_step s f hle h)

/-- Claim C3: across every session whose frame timestamps never decrease,
`total_time`, `present_time` and `focused_time` are non-negative, after
every frame `present_time ≤ total_time` and `focused_time ≤ total_time`,
and all three accumulators are monotonically non-decreasing from one frame
to the next. -/
theorem c3_metrics_monotone (t0 : ℚ) (L : ArduinoLink) (P F : ℕ) (fs : List Frame)
    (hts : timesMono t0 fs = true) :
    (0 ≤ (runFrames (initState t0 L P F) fs).total_time ∧
     0 ≤ (runFrames (initState t0 L P F) fs).present_time ∧
     0 ≤ (runFrames (initState t0 L P F) fs).focused_time ∧
     (runFrames (initState t0 L P F) fs).present_time ≤
       (runFrames (initState t0 L P F) fs).total_time ∧
     (runFrames (initState t0 L P F) fs).focused_time ≤
       (runFrames (initState t0 L P F) fs).total_time) ∧
    (∀ s f, s.start_time ≤ f.timestamp →
        s.total_time ≤ (stepFrame s f).total_time ∧
        s.present_time ≤ (stepFrame s f).present_time ∧
        s.focused_time ≤ (stepFrame s f).focused_time) := by
  constructor
  · exact timeInv_run (initState t0 L P F) fs (by simpa [initState] using hts)
      (by simp [TimeInv, initState])
  · intro s f hle
    have hd : 0 ≤ f.timestamp - s.start_time := by linarith
    rw [stepFrame_total_time, stepFrame_present_time, stepFrame_focused_time]
    split_ifs <;> refine ⟨?_, ?_, ?_⟩ <;> linarith

/-- Witness for C3 on a two-frame session with timestamps 1 and 2. -/
theorem c3_metrics_monotone_witness :
    (timesMono 0 [frame1, frame2] = true) ∧
    (0 ≤ (runFrames (initState 0 (connect_to_arduino false) 10 10)
        [frame1, frame2]).total_time ∧
     0 ≤ (runFrames (initState 0 (connect_to_arduino false) 10 10)
        [frame1, frame2]).present_time ∧
     0 ≤ (runFrames (initState 0 (connect_to_arduino false) 10 10)
        [frame1, frame2]).focused_time ∧
     (runFrames (initState 0 (connect_to_arduino false) 10 10)
        [frame1, frame2]).present_time ≤
       (runFrames (initState 0 (connect_to_arduino false) 10 10)
        [frame1, frame2]).total_time ∧
     (runFrames (initState 0 (connect_to_arduino false) 10 10)
        [frame1, frame2]).focused_time ≤
       (runFrames (initState 0 (connect_to_arduino false) 10 10)
        [frame1, frame2]).total_time) :=
  ⟨by decide,
   (c3_metrics_monotone 0 (connect_to_arduino false) 10 10 [frame1, frame2] (by decide)).1⟩

/-! ### Focus never outruns presence -/

lemma focusPresence_step (s : DetState) (f : Frame)
    (hff : f.focus_detected = true → f.face_detected = true)
    (hts : s.start_time ≤ f.timestamp)
    (h : FocusPresence s) : FocusPresence (stepFrame s f) := by
  obtain ⟨h1, h2, h3, h4, h5⟩ := h
  have hd : 0 ≤ f.timestamp - s.start_time := by linarith
  have himp : (stepFrame s f).is_focused = true → (stepFrame s f).is_present = true := by
    intro hc
    rw [stepFrame_is_focused] at hc
    rw [stepFrame_is_present]
    split_ifs at hc ⊢ <;>
      first
        | rfl
        | (exact h3 hc)
        | (exfalso; omega)
        | simp_all
  have hc1 : (stepFrame s f).focus_counter ≤ (stepFrame s f).presence_counter := by
    rw [stepFrame_focus_counter, stepFrame_presence_counter]
    cases hg : f.focus_detected
    · simp
    · rw [hff hg]
      simp only [if_pos]
      omega
  have hc2 : (stepFrame s f).absence_counter ≤ (stepFrame s f).distraction_counter := by
    rw [stepFrame_absence_counter, stepFrame_distraction_counter]
    cases hb : f.face_detected
    · have hg : f.focus_detected = false := by
        cases hgg : f.focus_detected
        · rfl
        · exact absurd (hff hgg) (by rw [hb]; simp)
      simp only [Bool.false_eq_true, if_false, hg]
      omega
    · simp
  have hc4 : (stepFrame s f).focused_time ≤ (stepFrame s f).present_time := by
    rw [stepFrame_present_time, stepFrame_focused_time]
    by_cases hcf : (stepFrame s f).is_focused = true
    · rw [if_pos hcf, if_pos (himp hcf)]
      linarith
    · rw [if_neg hcf]
      split_ifs <;> linarith
  have hc5 : (stepFrame s f).presence_threshold = (stepFrame s f).focus_threshold := by
    simp [h5]
  exact ⟨hc1, hc2, himp, hc4, hc5⟩

lemma focusPresence_run (s : DetState) (fs : List Frame)
    (hff : focusImpFace fs = true) (hts : timesMono s.start_time fs = true)
    (h : FocusPresence s) : FocusPresence (runFrames s fs) := by
  induction fs generalizing s with
  | nil => exact h
  | cons f fs ih =>
      simp only [focusImpFace, List.all_cons, Bool.and_eq_true] at hff
      obtain ⟨hf1, hf2⟩ := hff
      simp only [timesMono, Bool.and_eq_true, decide_eq_true_eq] at hts
      obtain ⟨ht1, ht2⟩ := hts
      have hffstep : f.focus_detected = true → f.face_detected = true := by
        intro hgg
        rw [hgg] at hf1
        simpa using hf1
      rw [runFrames_cons]
      exact ih (stepFrame s f) hf2 (by rw [stepFrame_start_time]; exact ht2)
        (focusPresence_step s f hffstep ht1 h)

lemma focusPresence_init (t0 : ℚ) (L : ArduinoLink) (T : ℕ) :
    FocusPresence (initState t0 L T T) := by
  simp [FocusPresence, initState]

/-- Claim C10 (implicit): because the classifier can only report focus on a
frame that also reports a face, after every frame `is_focused = true`
implies `is_present = true`; consequently on sessions with non-decreasing
timestamps `focused_time ≤ present_time` always holds and the focus rate
never exceeds 100. -/
theorem c10_focus_implies_presence (t0 : ℚ) (L : ArduinoLink) (T : ℕ) (fs : List Frame)
    (hff : focusImpFace fs = true) (hts : timesMono t0 fs = true) :
    ((runFrames (initState t0 L T T) fs).is_focused = true →
      (runFrames (initState t0 L T T) fs).is_present = true) ∧
    (runFrames (initState t0 L T T) fs).focused_time ≤
      (runFrames (initState t0 L T T) fs).present_time ∧
    focus_score (runFrames (initState t0 L T T) fs) ≤ 100 := by
  obtain ⟨h1, h2, h3, h4, h5⟩ := focusPresence_run (initState t0 L T T) fs hff
    (by simpa [initState] using hts) (focusPresence_init t0 L T)
  refine ⟨h3, h4, ?_⟩
  unfold focus_score
  split
  · rename_i hpos
    have hdiv : (runFrames (initState t0 L T T) fs).focused_time /
        (runFrames (initState t0 L T T) fs).present_time ≤ 1 :=
      (div_le_one hpos).mpr h4
    have := mul_le_mul_of_nonneg_right hdiv (by norm_num : (0:ℚ) ≤ 100)
    linarith
  · norm_num

/-- Witness for C10 on a one-frame session. -/
theorem c10_focus_implies_presence_witness :
    (focusImpFace [frame1] = true) ∧ (timesMono 0 [frame1] = true) ∧
    (((runFrames (initState 0 (connect_to_arduino false) 10 10) [frame1]).is_focused = true →
       (runFrames (initState 0 (connect_to_arduino false) 10 10) [frame1]).is_present = true) ∧
     (runFrames (initState 0 (connect_to_arduino false) 10 10) [frame1]).focused_time ≤
       (runFrames (initState 0 (connect_to_arduino false) 10 10) [frame1]).present_time ∧
     focus_score (runFrames (initState 0 (connect_to_arduino false) 10 10) [frame1]) ≤ 100) :=
  ⟨by decide, by decide,
   c10_focus_implies_presence 0 (connect_to_arduino false) 10 [frame1] (by decide) (by decide)⟩

/-! ### Scores -/

lemma score_bounds (x y : ℚ) (hx : 0 ≤ x) (hxy : x ≤ y) :
    0 ≤ (if 0 < y then x / y * 100 else 0) ∧ (if 0 < y then x / y * 100 else 0) ≤ 100 := by
  split
  · rename_i hy
    constructor
    · positivity
    · have hdiv : x / y ≤ 1 := (div_le_one hy).mpr hxy
      nlinarith
  · norm_num

/-- Claim C4: on every session with non-decreasing timestamps whose raw
focus signal implies the raw face signal, `presence_score`, `focus_score`
and `overall_score` always lie in `[0, 100]`; each score is exactly 0
whenever its denominator is 0 (so the guard prevents any division fault);
and on the first frame of a session (threshold 10) all three scores are 0
whatever that frame contains. -/
theorem c4_scores_in_range (t0 : ℚ) (L : ArduinoLink) (T : ℕ) (fs : List Frame)
    (hts : timesMono t0 fs = true) (hff : focusImpFace fs = true) :
    (0 ≤ presence_score (runFrames (initState t0 L T T) fs) ∧
     presence_score (runFrames (initState t0 L T T) fs) ≤ 100) ∧
    (0 ≤ focus_score (runFrames (initState t0 L T T) fs) ∧
     focus_score (runFrames (initState t0 L T T) fs) ≤ 100) ∧
    (0 ≤ overall_score (runFrames (initState t0 L T T) fs) ∧
     overall_score (runFrames (initState t0 L T T) fs) ≤ 100) ∧
    (∀ s : DetState, s.total_time = 0 → presence_score s = 0 ∧ overall_score s = 0) ∧
    (∀ s : DetState, s.present_time = 0 → focus_score s = 0) ∧
    (∀ g : Frame, presence_score (stepFrame (initState t0 L 10 10) g) = 0 ∧
        focus_score (stepFrame (initState t0 L 10 10) g) = 0 ∧
        overall_score (stepFrame (initState t0 L 10 10) g) = 0) := by
  have hTI := timeInv_run (initState t0 L T T) fs (by simpa [initState] using hts)
    (by simp [TimeInv, initState])
  have hFP := focusPresence_run (initState t0 L T T) fs hff
    (by simpa [initState] using hts) (focusPresence_init t0 L T)
  obtain ⟨ht1, ht2, ht3, ht4, ht5⟩ := hTI
  refine ⟨?_, ?_, ?_, ?_, ?_, ?_⟩
  · exact score_bounds _ _ ht2 ht4
  · exact score_bounds _ _ ht3 hFP.2.2.2.1
  · exact score_bounds _ _ ht3 ht5
  · intro s h
    unfold presence_score overall_score
    rw [h]
    norm_num
  · intro s h
    unfold focus_score
    rw [h]
    norm_num
  · intro g
    have hipg : (stepFrame (initState t0 L 10 10) g).is_present = false := by
      rw [stepFrame_is_present]
      simp [initState]
    have hifg : (stepFrame (initState t0 L 10 10) g).is_focused = false := by
      rw [stepFrame_is_focused]
      simp [initState]
    have hp0 : (stepFrame (initState t0 L 10 10) g).present_time = 0 := by
      rw [stepFrame_present_time, if_neg (by simp [hipg])]
      simp [initState]
    have hf0 : (stepFrame (initState t0 L 10 10) g).focused_time = 0 := by
      rw [stepFrame_focused_time, if_neg (by simp [hifg])]
      simp [initState]
    refine ⟨?_, ?_, ?_⟩
    · unfold presence_score
      rw [hp0]
      split <;> norm_num
    · unfold focus_score
      rw [hp0]
      norm_num
    · unfold overall_score
      rw [hf0]
      split <;> norm_num

/-- Witness for C4 on a one-frame session. -/
theorem c4_scores_in_range_witness :
    (timesMono 0 [frame1] = true) ∧ (focusImpFace [frame1] = true) ∧
    (0 ≤ presence_score (runFrames (initState 0 (connect_to_arduino false) 10 10) [frame1]) ∧
     presence_score (runFrames (initState 0 (connect_to_arduino false) 10 10) [frame1])
       ≤ 100) :=
  ⟨by decide, by decide,
   (c4_scores_in_range 0 (connect_to_arduino false) 10 [frame1] (by decide) (by decide)).1⟩

/-! ### Interval events -/

lemma eventInv_step (s : DetState) (f : Frame) (hts : s.start_time < f.timestamp)
    (h : EventInv s) : EventInv (stepFrame s f) := by
  obtain ⟨h1, h2, h3, h4⟩ := h
  refine ⟨?_, ?_, ?_, ?_⟩
  · rw [stepFrame_absence_events]
    split
    · cases hca : s.current_absence
      · simpa [hca] using h1
      · rename_i a
        simp only [hca]
        intro e he
        rcases List.mem_append.mp he with he | he
        · exact h1 e he
        · rw [List.mem_singleton.mp he]
          exact ⟨lt_of_le_of_lt (h3 a hca) hts, rfl⟩
    · exact h1
  · rw [stepFrame_distraction_events]
    split
    · cases hcd : s.current_distraction
      · simpa [hcd] using h2
      · rename_i a
        simp only [hcd]
        intro e he
        rcases List.mem_append.mp he with he | he
        · exact h2 e he
        · rw [List.mem_singleton.mp he]
          exact ⟨lt_of_le_of_lt (h4 a hcd) hts, rfl⟩
    · exact h2
  · intro a ha
    rw [stepFrame_current_absence] at ha
    rw [stepFrame_start_time]
    split at ha
    · split at ha
      · cases ha
      · exact le_of_lt (lt_of_le_of_lt (h3 a ha) hts)
    · split at ha
      · injection ha with ha2
        exact le_of_eq ha2.symm
      · exact le_of_lt (lt_of_le_of_lt (h3 a ha) hts)
  · intro a ha
    rw [stepFrame_current_distraction] at ha
    rw [stepFrame_start_time]
    split at ha
    · split at ha
      · cases ha
      · exact le_of_lt (lt_of_le_of_lt (h4 a ha) hts)
    · split at ha
      · injection ha with ha2
        exact le_of_eq ha2.symm
      · exact le_of_lt (lt_of_le_of_lt (h4 a ha) hts)

lemma eventInv_run (s : DetState) (fs : List Frame)
    (hts : timesStrict s.start_time fs = true) (h : EventInv s) :
    EventInv (runFrames s fs) := by
  induction fs generalizing s with
  | nil => exact h
  | cons f fs ih =>
      simp only [timesStrict, Bool.and_eq_true, decide_eq_true_eq] at hts
      obtain ⟨hlt, hrest⟩ := hts
      rw [runFrames_cons]
      exact ih (stepFrame s f) (by rw [stepFrame_start_time]; exact hrest)
        (eventInv_step s f hlt h)

lemma eventInv_init (t0 : ℚ) (L : ArduinoLink) (P F : ℕ) :
    EventInv (initState t0 L P F) := by
  simp [EventInv, initState]

/-- Claim C2: when presence flips from stable-absent to stable-present
while an absence interval opened at `a` is pending, exactly one event is
appended to the absence sequence, with `end_ts` the transition time and
`duration = end_ts - a`, and the pending slot is cleared; the distraction
track behaves identically on the focus axis; and on every run with strictly
increasing timestamps, every closed event of either sequence satisfies
`start_ts < end_ts` and `duration = end_ts - start_ts` exactly. -/
theorem c2_interval_events :
    (∀ s f a, f.face_detected = true → s.is_present = false →
        s.presence_threshold ≤ s.presence_counter + 1 → s.current_absence = some a →
        (stepFrame s f).absence_events =
          s.absence_events ++ [{ start_ts := a, end_ts := f.timestamp,
                                 duration := f.timestamp - a }] ∧
        (stepFrame s f).current_absence = none) ∧
    (∀ s f a, f.focus_detected = true → s.is_focused = false →
        s.focus_threshold ≤ s.focus_counter + 1 → s.current_distraction = some a →
        (stepFrame s f).distraction_events =
          s.distraction_events ++ [{ start_ts := a, end_ts := f.timestamp,
                                     duration := f.timestamp - a }] ∧
        (stepFrame s f).current_distraction = none) ∧
    (∀ t0 L P F fs, timesStrict t0 fs = true →
        (∀ e ∈ (runFrames (initState t0 L P F) fs).absence_events,
            e.start_ts < e.end_ts ∧ e.duration = e.end_ts - e.start_ts) ∧
        (∀ e ∈ (runFrames (initState t0 L P F) fs).distraction_events,
            e.start_ts < e.end_ts ∧ e.duration = e.end_ts - e.start_ts)) := by
  refine ⟨?_, ?_, ?_⟩
  · intro s f a hface hip hth hca
    constructor
    · rw [stepFrame_absence_events, if_pos ⟨hface, hth, hip⟩, hca]
    · rw [stepFrame_current_absence, if_pos hface, if_pos ⟨hth, hip⟩]
  · intro s f a hfoc hif hth hcd
    constructor
    · rw [stepFrame_distraction_events, if_pos ⟨hfoc, hth, hif⟩, hcd]
    · rw [stepFrame_current_distraction, if_pos hfoc, if_pos ⟨hth, hif⟩]
  · intro t0 L P F fs hts
    have h := eventInv_run (initState t0 L P F) fs (by simpa [initState] using hts)
      (eventInv_init t0 L P F)
    exact ⟨h.1, h.2.1⟩

/-- Witness for C2: Scenario B's closing transition at `t = 0.333` applied
to a state holding a pending absence interval opened at `t = 0`. -/
theorem c2_interval_events_witness :
    (stepFrame pendingAbsState frameB).absence_events =
      [{ start_ts := 0, end_ts := 333 / 1000, duration := 333 / 1000 - 0 }] ∧
    (stepFrame pendingAbsState frameB).current_absence = none := by
  have h := c2_interval_events.1 pendingAbsState frameB 0
    (by decide) (by decide) (by decide) (by decide)
  simpa [pendingAbsState, initState, frameB] using h

/-! ### Arduino command deduplication -/

lemma dedupInv_step (s : DetState) (f : Frame) (h : DedupInv s) :
    DedupInv (stepFrame s f) := by
  obtain ⟨h1, h2⟩ := h
  unfold DedupInv
  rw [stepFrame_send_calls, stepFrame_last_arduino_state]
  by_cases hc : some (desiredState (preArduino s f)) = s.last_arduino_state
  · rw [if_pos hc]
    exact ⟨hc.trans h1, h2⟩
  · rw [if_neg hc]
    constructor
    · exact (List.getLast?_concat _).symm
    · rw [List.chain'_append]
      refine ⟨h2, List.chain'_singleton _, ?_⟩
      intro x hx y hy
      simp only [List.head?_cons, Option.mem_def, Option.some.injEq] at hy
      rw [Option.mem_def] at hx
      intro hxy
      apply hc
      rw [h1, hx, hy, hxy]

lemma dedupInv_run (s : DetState) (fs : List Frame) (h : DedupInv s) :
    DedupInv (runFrames s fs) := by
  induction fs generalizing s with
  | nil => exact h
  | cons f fs ih =>
      rw [runFrames_cons]
      exact ih (stepFrame s f) (dedupInv_step s f h)

lemma dedupInv_init (t0 : ℚ) (L : ArduinoLink) (P F : ℕ) :
    DedupInv (initState t0 L P F) := by
  simp [DedupInv, initState]

/-- Claim C5: each frame the desired actuator command follows the priority
absent > focused > distracted (`'A'` when presence is stable-false, else
`'F'` when focus is stable-true, else `'D'`); a transmission is attempted
exactly when the desired command differs from `last_sent` (which afterwards
always holds the desired command); hence on any run no two consecutive
transmitted commands are equal. -/
theorem c5_command_priority_and_dedup (s : DetState) (f : Frame) :
    ((desiredState (stepFrame s f) = 'A' ↔ (stepFrame s f).is_present = false) ∧
     (desiredState (stepFrame s f) = 'F' ↔
        ((stepFrame s f).is_present = true ∧ (stepFrame s f).is_focused = true)) ∧
     (desiredState (stepFrame s f) = 'D' ↔
        ((stepFrame s f).is_present = true ∧ (stepFrame s f).is_focused = false))) ∧
    (stepFrame s f).send_calls =
      (if some (desiredState (stepFrame s f)) = s.last_arduino_state then s.send_calls
       else s.send_calls ++ [desiredState (stepFrame s f)]) ∧
    (stepFrame s f).last_arduino_state = some (desiredState (stepFrame s f)) ∧
    (∀ t0 L P F fs,
        List.Chain' (fun a b => a ≠ b)
          (runFrames (initState t0 L P F) fs).send_calls) := by
  have hchar : ∀ x : DetState,
      (desiredState x = 'A' ↔ x.is_present = false) ∧
      (desiredState x = 'F' ↔ (x.is_present = true ∧ x.is_focused = true)) ∧
      (desiredState x = 'D' ↔ (x.is_present = true ∧ x.is_focused = false)) := by
    intro x
    unfold desiredState
    cases hx : x.is_present <;> cases hy : x.is_focused <;> simp
  refine ⟨hchar (stepFrame s f), ?_, ?_, ?_⟩
  · rw [stepFrame_send_calls, desiredState_stepFrame]
  · rw [stepFrame_last_arduino_state, desiredState_stepFrame]
  · intro t0 L P F fs
    exact (dedupInv_run (initState t0 L P F) fs (dedupInv_init t0 L P F)).2

/-- Witness for C5: the very first frame of a session sends `'A'` and
records it as the last sent command. -/
theorem c5_command_priority_and_dedup_witness :
    (stepFrame (initState 0 (connect_to_arduino true) 10 10) frame1).last_arduino_state =
      some (desiredState (stepFrame (initState 0 (connect_to_arduino true) 10 10) frame1)) :=
  (c5_command_priority_and_dedup (initState 0 (connect_to_arduino true) 10 10) frame1).2.2.1

/-! ### Failed writes and the session clock -/

/-- Counterexample to C6 as stated: with a connected link and a failing
write, the first frame logs the error but still updates `last_sent` to the
attempted command, so the identical second frame makes no retry: after two
frames only one `send_to_arduino` call was ever made. -/
theorem c6_counterexample :
    (stepFrame (initState 0 (connect_to_arduino true) 10 10) failFrame).link.write_errors
      = ['A'] ∧
    (stepFrame (initState 0 (connect_to_arduino true) 10 10) failFrame).last_arduino_state
      = some 'A' ∧
    (stepFrame (stepFrame (initState 0 (connect_to_arduino true) 10 10) failFrame)
        failFrame).send_calls = ['A'] := by
  decide

/-- Claim C6 amended: when a transmission attempt on a connected link
fails, the failure is logged (appended to the error log) and is non-fatal,
but `last_sent` IS updated to the attempted command anyway; consequently a
following frame whose desired command is unchanged makes no retry. -/
theorem c6_failed_write_updates_last (s : DetState) (f : Frame)
    (hconn : s.link.connected = true) (hok : f.write_ok = false)
    (hdiff : some (desiredState (stepFrame s f)) ≠ s.last_arduino_state) :
    (stepFrame s f).link.write_errors =
      s.link.write_errors ++ [desiredState (stepFrame s f)] ∧
    (stepFrame s f).link.writes = s.link.writes ∧
    (stepFrame s f).last_arduino_state = some (desiredState (stepFrame s f)) ∧
    (∀ f2, desiredState (stepFrame (stepFrame s f) f2) = desiredState (stepFrame s f) →
        (stepFrame (stepFrame s f) f2).send_calls = (stepFrame s f).send_calls) := by
  have hd := desiredState_stepFrame s f
  rw [hd] at hdiff
  have hlink : (stepFrame s f).link =
      send_to_arduino s.link (desiredState (preArduino s f)) f.write_ok := by
    rw [stepFrame_link, if_neg hdiff]
  refine ⟨?_, ?_, ?_, ?_⟩
  · rw [hd, hlink]
    unfold send_to_arduino
    rw [if_pos hconn, if_neg (by simp [hok])]
  · rw [hlink]
    unfold send_to_arduino
    rw [if_pos hconn, if_neg (by simp [hok])]
  · rw [stepFrame_last_arduino_state, hd]
  · intro f2 heq
    have hcond : some (desiredState (preArduino (stepFrame s f) f2)) =
        (stepFrame s f).last_arduino_state := by
      rw [← desiredState_stepFrame, heq, stepFrame_last_arduino_state, hd]
    rw [stepFrame_send_calls, if_pos hcond]

/-- Witness for the amended C6: a first absent frame on a connected link
whose write fails. -/
theorem c6_failed_write_updates_last_witness :
    ((initState 0 (connect_to_arduino true) 10 10).link.connected = true) ∧
    (failFrame.write_ok = false) ∧
    (stepFrame (initState 0 (connect_to_arduino true) 10 10) failFrame).link.write_errors =
      (initState 0 (connect_to_arduino true) 10 10).link.write_errors ++
        [desiredState (stepFrame (initState 0 (connect_to_arduino true) 10 10) failFrame)] :=
  ⟨by decide, by decide,
   (c6_failed_write_updates_last (initState 0 (connect_to_arduino true) 10 10) failFrame
     (by decide) (by decide) (by decide)).1⟩

/-- Counterexample to C8 as stated: a first frame at `t = 5` of a session
whose clock was initialized at `t = 0` yields `Δt = 5`, so after the first
frame `total_time` is 5, not 0. -/
theorem c8_counterexample :
    (stepFrame (initState 0 (connect_to_arduino false) 10 10) frameT5).total_time = 5 ∧
    ¬ (stepFrame (initState 0 (connect_to_arduino false) 10 10) frameT5).total_time = 0 := by
  constructor
  · rw [stepFrame_total_time]
    simp [initState, frameT5]
  · rw [stepFrame_total_time]
    simp [initState, frameT5]

/-- Claim C8 amended: the first frame's increment is `Δt = now₁ - t₀`,
where `t₀` is the clock value captured at session initialization
(line 188, before the loop), so after the first frame
`total_time = now₁ - t₀`, which is zero exactly when the first frame's
timestamp equals the initialization time; `present_time` and
`focused_time` are still 0 after the first frame regardless (with
threshold 10 no stable-true state can be reached on frame one). -/
theorem c8_first_frame_delta (t0 : ℚ) (L : ArduinoLink) (g : Frame) :
    (stepFrame (initState t0 L 10 10) g).total_time = g.timestamp - t0 ∧
    ((stepFrame (initState t0 L 10 10) g).total_time = 0 ↔ g.timestamp = t0) ∧
    (stepFrame (initState t0 L 10 10) g).present_time = 0 ∧
    (stepFrame (initState t0 L 10 10) g).focused_time = 0 := by
  have htot : (stepFrame (initState t0 L 10 10) g).total_time = g.timestamp - t0 := by
    rw [stepFrame_total_time]
    simp [initState]
  refine ⟨htot, ?_, ?_, ?_⟩
  · rw [htot]
    constructor <;> intro h <;> linarith
  · have hipg : (stepFrame (initState t0 L 10 10) g).is_present = false := by
      rw [stepFrame_is_present]
      simp [initState]
    rw [stepFrame_present_time, if_neg (by simp [hipg])]
    simp [initState]
  · have hifg : (stepFrame (initState t0 L 10 10) g).is_focused = false := by
      rw [stepFrame_is_focused]
      simp [initState]
    rw [stepFrame_focused_time, if_neg (by simp [hifg])]
    simp [initState]

/-- Witness for the amended C8 at a concrete first frame. -/
theorem c8_first_frame_delta_witness :
    (stepFrame (initState 0 (connect_to_arduino false) 10 10) frame2).total_time =
      frame2.timestamp - 0 ∧
    ((stepFrame (initState 0 (connect_to_arduino false) 10 10) frame2).total_time = 0 ↔
      frame2.timestamp = 0) ∧
    (stepFrame (initState 0 (connect_to_arduino false) 10 10) frame2).present_time = 0 ∧
    (stepFrame (initState 0 (connect_to_arduino false) 10 10) frame2).focused_time = 0 :=
  c8_first_frame_delta 0 (connect_to_arduino false) frame2

/-! ### Disconnected sessions -/

lemma presenceMachine_setLink (s : DetState) (L : ArduinoLink) (b : Bool) (t : ℚ) :
    presenceMachine { s with link := L } b t = { presenceMachine s b t with link := L } := by
  unfold presenceMachine closeAbsence
  dsimp only
  (repeat' split) <;> first | rfl | simp_all

lemma focusMachine_setLink (s : DetState) (L : ArduinoLink) (b : Bool) (t : ℚ) :
    focusMachine { s with link := L } b t = { focusMachine s b t with link := L } := by
  unfold focusMachine closeDistraction
  dsimp only
  (repeat' split) <;> first | rfl | simp_all

lemma accruePresent_setLink (s : DetState) (L : ArduinoLink) (d : ℚ) :
    accruePresent { s with link := L } d = { accruePresent s d with link := L } := by
  unfold accruePresent
  dsimp only
  split <;> rfl

lemma accrueFocused_setLink (s : DetState) (L : ArduinoLink) (d : ℚ) :
    accrueFocused { s with link := L } d = { accrueFocused s d with link := L } := by
  unfold accrueFocused
  dsimp only
  split <;> rfl

lemma preArduino_setLink (s : DetState) (L : ArduinoLink) (f : Frame) :
    preArduino { s with link := L } f = { preArduino s f with link := L } := by
  unfold preArduino
  dsimp only
  rw [show updateTimes { s with link := L } f.timestamp =
        { updateTimes s f.timestamp with link := L } from rfl]
  rw [presenceMachine_setLink, accruePresent_setLink, focusMachine_setLink,
      accrueFocused_setLink]

lemma stepFrame_deadLink (s : DetState) (f : Frame) (w e : List Char) :
    stepFrame { s with link := { connected := false, writes := w, write_errors := e } } f =
      { stepFrame s f with
          link := { connected := false, writes := w, write_errors := e } } := by
  unfold stepFrame
  rw [preArduino_setLink]
  unfold arduinoBlock desiredState send_to_arduino
  dsimp only
  (repeat' split) <;> first | rfl | simp_all

lemma runFrames_deadLink (s : DetState) (fs : List Frame) (w e : List Char) :
    runFrames { s with link := { connected := false, writes := w, write_errors := e } } fs =
      { runFrames s fs with
          link := { connected := false, writes := w, write_errors := e } } := by
  induction fs generalizing s with
  | nil => rfl
  | cons f fs ih => rw [runFrames_cons, stepFrame_deadLink, ih, runFrames_cons]

/-- Claim C9: if the startup connection attempt fails, the link flag is
false and stays false for the whole session (no retry exists anywhere in
the loop); no byte is ever written and no write error can occur, so every
`send` call is a raise-free no-op; and the entire rest of the session state
— state machines, counters, metrics, event logs, `last_sent` bookkeeping
and the data feeding the final summary — is identical to what a connected
session over the same frames would produce. -/
theorem c9_disconnected_session (t0 : ℚ) (P F : ℕ) (fs : List Frame) :
    (connect_to_arduino false).connected = false ∧
    (runFrames (initState t0 (connect_to_arduino false) P F) fs).link =
      { connected := false, writes := [], write_errors := [] } ∧
    (runFrames (initState t0 (connect_to_arduino false) P F) fs) =
      { runFrames (initState t0 (connect_to_arduino true) P F) fs with
          link := { connected := false, writes := [], write_errors := [] } } := by
  have hinit : initState t0 (connect_to_arduino false) P F =
      { initState t0 (connect_to_arduino true) P F with
          link := { connected := false, writes := [], write_errors := [] } } := rfl
  have h := runFrames_deadLink (initState t0 (connect_to_arduino true) P F) fs [] []
  refine ⟨rfl, ?_, ?_⟩
  · rw [hinit, h]
  · rw [hinit, h]

/-- Witness for C9 on a concrete two-frame session. -/
theorem c9_disconnected_session_witness :
    (runFrames (initState 0 (connect_to_arduino false) 10 10) [frame1, frame2]).link =
      { connected := false, writes := [], write_errors := [] } :=
  (c9_disconnected_session 0 10 10 [frame1, frame2]).2.1
